import Mathlib

/-!
# ckpool `api.c`: the administrative command gateway

A shallow embedding of `src/api.c` (`api_cmds` and `ckpool_api`) together with
the properties of its routing and envelope logic.

Conventions of the embedding.

* A C string (`char *`, NUL terminated) is a Lean `String` holding the text
  before the terminator, so strings are Unicode text without an embedded NUL; a
  possibly-NULL pointer is an `Option`.
* `ckpool_api` returns `void`; what it does is what it calls.  The embedding
  therefore returns the list of calls the function makes, in program order
  (`Event`), and every theorem is a statement about that list.
* The collaborators the function calls but does not define (the JSON parser and
  serialiser, the channels to the sibling processes and to the caller) are the
  fields of `Env`: arbitrary functions, so a theorem quantified over `Env`
  holds whatever they answer.
-/

set_option autoImplicit false

namespace Ckpool

/-! ## JSON values (jansson `json_t`) -/

/-- A jansson value.  An object keeps its members in insertion order, which is
what `JSON_PRESERVE_ORDER` serialises. -/
inductive json_t where
  | null
  | boolean (b : Bool)
  | integer (n : Int)
  | real (mantissa : Int) (exponent : Int)
  | string (s : String)
  | array (elems : List json_t)
  | object (members : List (String × json_t))

/-- The diagnostic `json_loads` fills in when it fails (`json_error_t`). -/
structure json_error_t where
  line : Int
  text : String

/-- Member lookup in an insertion-ordered member list. -/
def lookup_member (key : String) : List (String × json_t) → Option json_t
  | [] => none
  | (k, v) :: rest => if k = key then some v else lookup_member key rest

/-- jansson `json_object_get`: NULL when the value is not an object or has no
member of that name, otherwise the member (which may be the JSON null value: a
non-NULL pointer). -/
def json_object_get (val : json_t) (key : String) : Option json_t :=
  match val with
  | .object members => lookup_member key members
  | _ => none

/-- Modelled from the spec: `json_get_string` is declared in `libckpool.h`,
which is not part of the sources at hand.  The spec (4.2, step 3): "Extract the
`command` field as a string; if missing or wrong type, fail".  The result is
the stored string on success and `none` when the call returns false. -/
def json_get_string (val : json_t) (res : String) : Option String :=
  match json_object_get val res with
  | some (.string s) => some s
  | _ => none

/-- Modelled from the spec: `safecmp` is declared in `libckpool.h`, which is
not part of the sources at hand.  The spec (2, 4.1) describes the comparison as
case-sensitive over the whole name; the result is zero exactly for equal
strings. -/
def safecmp (a b : String) : Int :=
  if a = b then 0 else -1

/-- C `strlen`: the number of bytes before the terminator. -/
def strlen (s : String) : Nat :=
  s.utf8ByteSize

/-! ## `json_pack`, as far as the formats of `api.c` use it -/

/-- One variadic argument of `json_pack`. -/
inductive pack_arg where
  | str (s : String)
  | int (n : Int)
  | bool (b : Bool)
  | json (o : json_t)

/-- The format scanner of `json_pack` skips blanks, `,` and `:`. -/
def pack_tokens (fmt : String) : List Char :=
  fmt.toList.filter (fun c => !(c = ' ' || c = ',' || c = ':'))

/-- The state of a `json_pack` run: format tokens and arguments still unread. -/
abbrev pack_state := List Char × List pack_arg

mutual
/-- Pack one value: `s` string, `i` integer, `b` boolean, `o` a given value,
`{...}` object, `[...]` array.  `none` is a failed pack (NULL). -/
def pack : Nat → pack_state → Option (json_t × pack_state)
  | 0, _ => none
  | fuel + 1, (tok :: toks, args) =>
    if tok = '{' then
      match pack_object fuel (toks, args) with
      | some (members, st) => some (.object members, st)
      | none => none
    else if tok = '[' then
      match pack_array fuel (toks, args) with
      | some (elems, st) => some (.array elems, st)
      | none => none
    else if tok = 's' then
      match args with
      | .str s :: args' => some (.string s, (toks, args'))
      | _ => none
    else if tok = 'i' then
      match args with
      | .int n :: args' => some (.integer n, (toks, args'))
      | _ => none
    else if tok = 'b' then
      match args with
      | .bool b :: args' => some (.boolean b, (toks, args'))
      | _ => none
    else if tok = 'o' then
      match args with
      | .json o :: args' => some (o, (toks, args'))
      | _ => none
    else none
  | _ + 1, ([], _) => none
/-- The members of an object, up to the closing brace: each is a key (format
`s`) followed by a value. -/
def pack_object : Nat → pack_state → Option (List (String × json_t) × pack_state)
  | 0, _ => none
  | fuel + 1, (tok :: toks, args) =>
    if tok = '}' then some ([], (toks, args))
    else if tok = 's' then
      match args with
      | .str key :: args' =>
        match pack fuel (toks, args') with
        | some (v, st) =>
          match pack_object fuel st with
          | some (members, st') => some ((key, v) :: members, st')
          | none => none
        | none => none
      | _ => none
    else none
  | _ + 1, ([], _) => none
/-- The elements of an array, up to the closing bracket. -/
def pack_array : Nat → pack_state → Option (List json_t × pack_state)
  | 0, _ => none
  | fuel + 1, (tok :: toks, args) =>
    if tok = ']' then some ([], (toks, args))
    else
      match pack fuel (tok :: toks, args) with
      | some (v, st) =>
        match pack_array fuel st with
        | some (elems, st') => some (v :: elems, st')
        | none => none
      | none => none
  | _ + 1, ([], _) => none
end

/-- jansson `json_pack`: the value the format describes, or NULL when the
format and the arguments do not fit or format text is left over. -/
def json_pack (fmt : String) (args : List pack_arg) : Option json_t :=
  match pack ((pack_tokens fmt).length + 1) (pack_tokens fmt, args) with
  | some (v, ([], _)) => some v
  | _ => none

/-- Modelled from the spec: `JSON_CPACK` is a macro of `libckpool.h`, which is
not part of the sources at hand; by the spec (2, 4.4) the encoder "builds a
JSON envelope".  It stores the result of `json_pack` on the format and the
arguments in its first argument. -/
def JSON_CPACK (fmt : String) (args : List pack_arg) : Option json_t :=
  json_pack fmt args

/-- The value `json_null()` returns. -/
def json_null : json_t := .null

/-! ## The command registry -/

def PROC_MAIN : Int := 0
def PROC_GENERATOR : Int := 1
def PROC_STRATIFER : Int := 2
def PROC_CONNECTOR : Int := 3

/-- One row of the registry (`struct api_command`). -/
structure api_command where
  /-- API command we receive -/
  cmd : String
  /-- Process to send request to -/
  process : Int
  /-- Command to send to process -/
  proccmd : String
  /-- Does this command take parameters -/
  params : Bool
  deriving DecidableEq

/-- The registry, sentinel row included. -/
def api_cmds : List api_command :=
  [ { cmd := "connector.stats", process := PROC_CONNECTOR, proccmd := "stats", params := false },
    { cmd := "stratifier.stats", process := PROC_STRATIFER, proccmd := "stats", params := false },
    { cmd := "generator.stats", process := PROC_GENERATOR, proccmd := "stats", params := false },
    { cmd := "", process := -1, proccmd := "", params := false } ]

/-! ## The calls `ckpool_api` makes -/

/-- The request handed to `ckpool_api` (`apimsg_t`): the raw payload and the
caller's socket. -/
structure apimsg_t where
  buf : Option String
  sockd : Int

/-- The channels of `ckpool_t` a request can be forwarded on: `&ckp->main`,
`ckp->generator`, `ckp->stratifier`, `ckp->connector`. -/
inductive proc_instance where
  | main
  | generator
  | stratifier
  | connector
  deriving DecidableEq

/-- The flags `ckpool_api` gives `json_dumps`. -/
inductive dump_flag where
  | JSON_NO_UTF8
  | JSON_PRESERVE_ORDER
  deriving DecidableEq

/-- An argument of a log line. -/
inductive log_arg where
  | s (x : Option String)
  | d (n : Int)

/-- What a `free` releases. -/
inductive heap_obj where
  | procresponse (p : Option String)
  | response (p : Option String)
  | buf (p : Option String)
  | apimsg

/-- One call made by `ckpool_api`, with its arguments. -/
inductive Event where
  | LOGWARNING (fmt : String) (args : List log_arg)
  | LOGDEBUG (fmt : String) (args : List log_arg)
  | json_loads (buf : String)
  | json_get_string (res : String)
  | json_object_get (key : String)
  /-- The call `safecmp(api_cmds[i].cmd, cmd)` -/
  | safecmp (i : Nat) (cmd : String)
  /-- The read of `api_cmds[i].process` in the loop condition -/
  | read_process (i : Nat)
  /-- A read of `api_cmds[i]` past the end of the table -/
  | out_of_bounds (i : Nat)
  | send_recv_proc (pi : proc_instance) (proccmd : String)
  /-- A `JSON_CPACK` and the value it stored in `response_val` -/
  | JSON_CPACK (response_val : Option json_t)
  | json_dumps (response_val : Option json_t) (flags : List dump_flag)
  | send_unix_msg (sockd : Int) (response : Option String)
  | wait_close (sockd : Int) (timeout : Int)
  | json_decref (val : json_t)
  | free (obj : heap_obj)
  | close (sockd : Int)

/-- The collaborators: the JSON parser and serialiser, the request channel of
each sibling process, and the caller's channel. -/
structure Env where
  /-- The call `json_loads(buf, 0, &err_val)`: the value, or the diagnostic on failure -/
  json_loads : String → Except json_error_t json_t
  /-- The call `send_recv_proc(pi, proccmd)`: the reply, NULL when there is none -/
  send_recv_proc : proc_instance → String → Option String
  /-- The call `json_dumps(response_val, flags)`: the text, NULL on failure -/
  json_dumps : Option json_t → List dump_flag → Option String
  /-- The call `send_unix_msg(sockd, response)`: whether the message was sent -/
  send_unix_msg : Int → Option String → Bool
  /-- The call `wait_close(sockd, timeout)`: whether the close was seen in time -/
  wait_close : Int → Int → Bool

/-! ## `ckpool_api` -/

/-- How the `do ... while` scan of the registry ends. -/
inductive scan_end where
  /-- The loop is left with `ac = &api_cmds[i]` -/
  | found (i : Nat) (ac : api_command)
  /-- The loop is left with `ac == NULL` -/
  | not_found
  /-- The loop read `api_cmds[i]` past the end of the table -/
  | out_of_bounds (i : Nat)

/-- The scan
`do { if (!safecmp(api_cmds[i].cmd, cmd)) ac = &api_cmds[i]; else i++; }
 while (!ac && api_cmds[i].process != -1);`
entered with index `i`, `tbl` being the rows from `api_cmds[i]` on. -/
def scan (cmd : String) : List api_command → Nat → List Event × scan_end
  | [], i => ([.out_of_bounds i], .out_of_bounds i)
  | row :: rest, i =>
    if safecmp row.cmd cmd = 0 then
      ([.safecmp i cmd], .found i row)
    else
      match rest with
      | [] => ([.safecmp i cmd, .out_of_bounds (i + 1)], .out_of_bounds (i + 1))
      | next :: _ =>
        if next.process ≠ -1 then
          let r := scan cmd rest (i + 1)
          (.safecmp i cmd :: .read_process (i + 1) :: r.1, r.2)
        else
          ([.safecmp i cmd, .read_process (i + 1)], .not_found)

/-- The code from the label `out:` on. -/
def out (apimsg : apimsg_t) (val : Option json_t)
    (procresponse response : Option String) : List Event :=
  (match val with
    | some v => [.json_decref v]
    | none => []) ++
  [ .free (.procresponse procresponse),
    .free (.response response),
    .close apimsg.sockd,
    .free (.buf apimsg.buf),
    .free .apimsg ]

/-- The code from the label `out_send:` on. -/
def out_send (env : Env) (apimsg : apimsg_t) (val : Option json_t)
    (procresponse : Option String) (response_val : Option json_t) : List Event :=
  let flags := [dump_flag.JSON_NO_UTF8, dump_flag.JSON_PRESERVE_ORDER]
  let response := env.json_dumps response_val flags
  .json_dumps response_val flags ::
  .send_unix_msg apimsg.sockd response ::
  if env.send_unix_msg apimsg.sockd response = false then
    .LOGWARNING "Failed to send API response: %s to sockd %d" [.s response, .d apimsg.sockd] ::
    out apimsg val procresponse response
  else
    .wait_close apimsg.sockd 5 ::
    ((if env.wait_close apimsg.sockd 5 = false then
        [.LOGWARNING "ckpool_api did not detect close from sockd %d" [.d apimsg.sockd]]
      else []) ++
     out apimsg val procresponse response)

/-- The failure envelopes: `JSON_CPACK(response_val, "{s:b,s:[is],s:o}",
"result", false, "error", code, msg, "response", json_null())`. -/
def pack_error (code : Int) (msg : String) : Option json_t :=
  JSON_CPACK "{s:b,s:[is],s:o}"
    [.str "result", .bool false, .str "error", .int code, .str msg,
     .str "response", .json json_null]

/-- The `switch (ac->process)`: the channel the request goes to, if any case
applies. -/
def switch_process (process : Int) : Option proc_instance :=
  if process = PROC_MAIN then some .main
  else if process = PROC_GENERATOR then some .generator
  else if process = PROC_STRATIFER then some .stratifier
  else if process = PROC_CONNECTOR then some .connector
  else none

/-- The code of `ckpool_api` after the scan, for a resolved entry `ac`: the
params check, the dispatch and the two envelopes that follow it. -/
def dispatch (env : Env) (apimsg : apimsg_t) (val : json_t) (params : Option json_t)
    (ac : api_command) : List Event :=
  if ac.params = true ∧ params.isNone then
    let response_val := pack_error (-4) "Missing params"
    .LOGWARNING "Failed to find mandatory params in API command %s" [.s apimsg.buf] ::
    .JSON_CPACK response_val ::
    out_send env apimsg (some val) none response_val
  else
    let call : List Event × Option String :=
      match switch_process ac.process with
      | some pi => ([.send_recv_proc pi ac.proccmd], env.send_recv_proc pi ac.proccmd)
      | none => ([], none)
    match call.2 with
    | none =>
      let response_val := pack_error (-4) "No process response"
      call.1 ++
      .LOGWARNING "Failed to get API response from process %d to command %s msg %s"
        [.d ac.process, .s (some ac.proccmd), .s apimsg.buf] ::
      .JSON_CPACK response_val ::
      out_send env apimsg (some val) none response_val
    | some procresponse =>
      let response_val := JSON_CPACK "{s:b,s:o,s:[s]}"
        [.str "result", .bool false, .str "error", .json json_null,
         .str "response", .str procresponse]
      call.1 ++
      .JSON_CPACK response_val ::
      out_send env apimsg (some val) (some procresponse) response_val

/-- The function `ckpool_api`: the calls it makes, in order. -/
def ckpool_api (env : Env) (apimsg : apimsg_t) : List Event :=
  match apimsg.buf with
  | none => .LOGWARNING "Received NULL buffer in ckpool_api" [] :: out apimsg none none none
  | some buf =>
    if strlen buf = 0 then
      .LOGWARNING "Received NULL buffer in ckpool_api" [] :: out apimsg none none none
    else
      .LOGDEBUG "API received request %s" [.s (some buf)] ::
      .json_loads buf ::
      match env.json_loads buf with
      | .error err_val =>
        let response_val := pack_error (-1) "Invalid json"
        .LOGWARNING "Failed to JSON decode API message \"%s\" (%d):%s"
          [.s (some buf), .d err_val.line, .s (some err_val.text)] ::
        .JSON_CPACK response_val ::
        out_send env apimsg none none response_val
      | .ok val =>
        .json_get_string "command" ::
        match json_get_string val "command" with
        | none =>
          let response_val := pack_error (-2) "No command"
          .LOGWARNING "Failed to find API command in message \"%s\"" [.s (some buf)] ::
          .JSON_CPACK response_val ::
          out_send env apimsg (some val) none response_val
        | some cmd =>
          let params := json_object_get val "params"
          let s := scan cmd api_cmds 0
          .json_object_get "params" :: s.1 ++
          match s.2 with
          | .out_of_bounds _ => []
          | .not_found =>
            let response_val := pack_error (-3) "Unknown command"
            .LOGWARNING "Failed to find matching API command %s" [.s (some cmd)] ::
            .JSON_CPACK response_val ::
            out_send env apimsg (some val) none response_val
          | .found _ ac => dispatch env apimsg val params ac

/-- The state of `api.c` that outlives a call of `ckpool_api`: its one
file-scope variable, the table `api_cmds` (declared without `const`).  Every
other variable of `ckpool_api` is a local, initialised on entry, and the request
and the heap values are released before the return. -/
structure globals where
  api_cmds : List api_command

/-- The state at program start: the table as its initialiser gives it. -/
def globals_init : globals :=
  { api_cmds := Ckpool.api_cmds }

/-- The function `ckpool_api` with the file-scope state explicit: the calls it
makes when the table holds `g.api_cmds` on entry, and the state on return.  The
function reads `api_cmds[i].cmd` and `api_cmds[i].process` in the scan, takes
the address `&api_cmds[i]`, and reads `ac->params`, `ac->process` and
`ac->proccmd` through it; no statement stores to the table or through `ac`, so
the state on return is the state on entry. -/
def ckpool_api_state (g : globals) (env : Env) (apimsg : apimsg_t) : List Event × globals :=
  match apimsg.buf with
  | none =>
    (.LOGWARNING "Received NULL buffer in ckpool_api" [] :: out apimsg none none none, g)
  | some buf =>
    if strlen buf = 0 then
      (.LOGWARNING "Received NULL buffer in ckpool_api" [] :: out apimsg none none none, g)
    else
      match env.json_loads buf with
      | .error err_val =>
        let response_val := pack_error (-1) "Invalid json"
        (.LOGDEBUG "API received request %s" [.s (some buf)] ::
         .json_loads buf ::
         .LOGWARNING "Failed to JSON decode API message \"%s\" (%d):%s"
           [.s (some buf), .d err_val.line, .s (some err_val.text)] ::
         .JSON_CPACK response_val ::
         out_send env apimsg none none response_val, g)
      | .ok val =>
        match json_get_string val "command" with
        | none =>
          let response_val := pack_error (-2) "No command"
          (.LOGDEBUG "API received request %s" [.s (some buf)] ::
           .json_loads buf ::
           .json_get_string "command" ::
           .LOGWARNING "Failed to find API command in message \"%s\"" [.s (some buf)] ::
           .JSON_CPACK response_val ::
           out_send env apimsg (some val) none response_val, g)
        | some cmd =>
          let params := json_object_get val "params"
          let s := scan cmd g.api_cmds 0
          (.LOGDEBUG "API received request %s" [.s (some buf)] ::
           .json_loads buf ::
           .json_get_string "command" ::
           (.json_object_get "params" :: s.1 ++
            match s.2 with
            | .out_of_bounds _ => []
            | .not_found =>
              let response_val := pack_error (-3) "Unknown command"
              .LOGWARNING "Failed to find matching API command %s" [.s (some cmd)] ::
              .JSON_CPACK response_val ::
              out_send env apimsg (some val) none response_val
            | .found _ ac => dispatch env apimsg val params ac), g)

/-- Two calls of `ckpool_api` in sequence, the second entered in the state the
first returns in: the calls of the first, the calls of the second, and the state
after both. -/
def ckpool_api_twice (g : globals) (env1 : Env) (msg1 : apimsg_t) (env2 : Env)
    (msg2 : apimsg_t) : List Event × List Event × globals :=
  let first := ckpool_api_state g env1 msg1
  let second := ckpool_api_state first.2 env2 msg2
  (first.1, second.1, second.2)

/-! ## Reading a run -/

/-- The send-and-receive exchanges with sibling processes, in order: the
channel and the string sent on it. -/
def proc_calls : List Event → List (proc_instance × String)
  | [] => []
  | .send_recv_proc pi proccmd :: es => (pi, proccmd) :: proc_calls es
  | _ :: es => proc_calls es

/-- The envelopes built (the values the `JSON_CPACK`s stored). -/
def packed : List Event → List (Option json_t)
  | [] => []
  | .JSON_CPACK response_val :: es => response_val :: packed es
  | _ :: es => packed es

/-- The messages given to `send_unix_msg`: the socket and the text. -/
def sent : List Event → List (Int × Option String)
  | [] => []
  | .send_unix_msg sockd response :: es => (sockd, response) :: sent es
  | _ :: es => sent es

/-- The payloads given to the JSON parser. -/
def parsed : List Event → List String
  | [] => []
  | .json_loads buf :: es => buf :: parsed es
  | _ :: es => parsed es

/-- The registry indexes read by the scan, for the comparison or for the loop
condition, in bounds or not. -/
def scanned : List Event → List Nat
  | [] => []
  | .safecmp i _ :: es => i :: scanned es
  | .read_process i :: es => i :: scanned es
  | .out_of_bounds i :: es => i :: scanned es
  | _ :: es => scanned es

/-- The failure envelope `{"result": false, "error": [code, msg], "response": null}`. -/
def error_envelope (code : Int) (msg : String) : json_t :=
  .object [("result", .boolean false),
           ("error", .array [.integer code, .string msg]),
           ("response", .null)]

/-- The success envelope `{"result": false, "error": null, "response": [r]}`. -/
def reply_envelope (r : String) : json_t :=
  .object [("result", .boolean false),
           ("error", .null),
           ("response", .array [.string r])]

/-- The flags of the one `json_dumps` call. -/
def dumps_flags : List dump_flag :=
  [.JSON_NO_UTF8, .JSON_PRESERVE_ORDER]

/-- An operation on a socket of the caller's channel. -/
inductive sock_op where
  | send
  | wait
  | close
  deriving DecidableEq

/-- The operations on sockets, in order: each `send_unix_msg`, `wait_close`
and `close`, with the socket it is applied to. -/
def sock_ops : List Event → List (sock_op × Int)
  | [] => []
  | .send_unix_msg sockd _ :: es => (.send, sockd) :: sock_ops es
  | .wait_close sockd _ :: es => (.wait, sockd) :: sock_ops es
  | .close sockd :: es => (.close, sockd) :: sock_ops es
  | _ :: es => sock_ops es

/-- The parsed values released (`json_decref`), in order. -/
def released : List Event → List json_t
  | [] => []
  | .json_decref val :: es => val :: released es
  | _ :: es => released es

/-- The arguments of the calls `free(procresponse)`, in order. -/
def freed_replies : List Event → List (Option String)
  | [] => []
  | .free (.procresponse p) :: es => p :: freed_replies es
  | _ :: es => freed_replies es

/-- The waits for the peer to close (`wait_close`): the socket and the bound. -/
def waits : List Event → List (Int × Int)
  | [] => []
  | .wait_close sockd timeout :: es => (sockd, timeout) :: waits es
  | _ :: es => waits es

/-- The registry indexes whose name the scan compared with the candidate. -/
def compared : List Event → List Nat
  | [] => []
  | .safecmp i _ :: es => i :: compared es
  | _ :: es => compared es

/-- Whether an event is one of the reads of the registry made by the scan. -/
def is_scan_event : Event → Bool
  | .safecmp _ _ => true
  | .read_process _ => true
  | .out_of_bounds _ => true
  | _ => false

/-- The code in the `error` member of an envelope, when that member is an
array that starts with an integer. -/
def error_code : json_t → Option Int
  | .object members =>
    match lookup_member "error" members with
    | some (.array (.integer code :: _)) => some code
    | _ => none
  | _ => none

/-- The payload of one blank. -/
def blank_payload : String := " "

/-- The value of the payload `{"command":""}`. -/
def empty_command_value : json_t :=
  .object [("command", .string "")]

/-- The payload `{"command":""}`. -/
def empty_command_payload : String :=
  "\x7b\"command\":\"\"\x7d"

/-! ## Sample collaborators and requests -/

/-- Collaborators for the examples: the parser answers `decoded`, every sibling
answers `reply`, the caller's channel takes the message and closes in time. -/
def sample_env (decoded : Except json_error_t json_t) (reply : Option String) : Env where
  json_loads := fun _ => decoded
  send_recv_proc := fun _ _ => reply
  json_dumps := fun _ _ => some "envelope"
  send_unix_msg := fun _ _ => true
  wait_close := fun _ _ => true

/-- The value of the payload `{"command":"generator.stats"}`. -/
def generator_stats_value : json_t :=
  .object [("command", .string "generator.stats")]

/-- Collaborators whose parser answers `{"command":"generator.stats"}`. -/
def env_generator (reply : Option String) : Env :=
  sample_env (.ok generator_stats_value) reply

/-- The payload `{"command":"generator.stats"}`. -/
def generator_stats_payload : String :=
  "\x7b\"command\":\"generator.stats\"\x7d"

/-- The payload `{"command":"doesnotexist"}`. -/
def unknown_payload : String :=
  "\x7b\"command\":\"doesnotexist\"\x7d"

/-- The value of the payload `{"command":"doesnotexist"}`. -/
def unknown_value : json_t :=
  .object [("command", .string "doesnotexist")]

/-- The payload `{"command":5}`. -/
def number_command_payload : String :=
  "\x7b\"command\":5\x7d"

/-- The value of the payload `{"command":5}`. -/
def number_command_value : json_t :=
  .object [("command", .integer 5)]

/-- A registry row that takes parameters; no row of `api_cmds` does. -/
def params_row : api_command :=
  { cmd := "generator.params", process := PROC_GENERATOR, proccmd := "params", params := true }

/-- The value of the payload `{"command":"generator.params","params":null}`. -/
def null_params_value : json_t :=
  .object [("command", .string "generator.params"), ("params", .null)]

/-- The payload `{"command":"generator.params","params":null}`. -/
def null_params_payload : String :=
  "\x7b\"command\":\"generator.params\",\"params\":null\x7d"

/-- A request on socket 7 with the given payload. -/
def request (payload : String) : apimsg_t :=
  { buf := some payload, sockd := 7 }

/-! ## Helper lemmas -/

theorem strlen_eq_zero_iff (s : String) : strlen s = 0 ↔ s = "" := by
  cases s with
  | mk cs =>
    cases cs with
    | nil => simp [strlen, String.utf8ByteSize, String.utf8ByteSize.go]
    | cons c cs =>
      have hc := Char.utf8Size_pos c
      have hne : (String.mk (c :: cs)) ≠ "" := by
        intro h
        have := congrArg String.data h
        simp at this
      simp only [strlen, String.utf8ByteSize, String.utf8ByteSize.go, hne, iff_false]
      omega

theorem pack_error_eq (code : Int) (msg : String) :
    pack_error code msg = some (error_envelope code msg) := rfl

theorem pack_reply_eq (r : String) :
    JSON_CPACK "{s:b,s:o,s:[s]}"
        [.str "result", .bool false, .str "error", .json json_null,
         .str "response", .str r] = some (reply_envelope r) := rfl

/-- The scan over the registry, for every command string: the reads it makes
and how it ends. -/
theorem scan_api_cmds_eq (cmd : String) :
    scan cmd api_cmds 0 =
      if cmd = "connector.stats" then
        ([.safecmp 0 cmd], .found 0 ⟨"connector.stats", PROC_CONNECTOR, "stats", false⟩)
      else if cmd = "stratifier.stats" then
        ([.safecmp 0 cmd, .read_process 1, .safecmp 1 cmd],
          .found 1 ⟨"stratifier.stats", PROC_STRATIFER, "stats", false⟩)
      else if cmd = "generator.stats" then
        ([.safecmp 0 cmd, .read_process 1, .safecmp 1 cmd, .read_process 2, .safecmp 2 cmd],
          .found 2 ⟨"generator.stats", PROC_GENERATOR, "stats", false⟩)
      else
        ([.safecmp 0 cmd, .read_process 1, .safecmp 1 cmd, .read_process 2, .safecmp 2 cmd,
          .read_process 3], .not_found) := by
  by_cases h0 : cmd = "connector.stats"
  · subst h0; rfl
  by_cases h1 : cmd = "stratifier.stats"
  · subst h1; rfl
  by_cases h2 : cmd = "generator.stats"
  · subst h2; rfl
  simp [scan, api_cmds, safecmp, h0, h1, h2, eq_comm, PROC_CONNECTOR, PROC_STRATIFER,
    PROC_GENERATOR]

@[simp] theorem proc_calls_nil : proc_calls [] = [] := rfl

@[simp] theorem packed_nil : packed [] = [] := rfl

@[simp] theorem sent_nil : sent [] = [] := rfl

@[simp] theorem parsed_nil : parsed [] = [] := rfl

@[simp] theorem scanned_nil : scanned [] = [] := rfl

theorem proc_calls_cons (e : Event) (es : List Event) :
    proc_calls (e :: es) =
      (match e with
        | .send_recv_proc pi proccmd => [(pi, proccmd)]
        | _ => []) ++ proc_calls es := by
  cases e <;> rfl

theorem packed_cons (e : Event) (es : List Event) :
    packed (e :: es) =
      (match e with
        | .JSON_CPACK response_val => [response_val]
        | _ => []) ++ packed es := by
  cases e <;> rfl

theorem sent_cons (e : Event) (es : List Event) :
    sent (e :: es) =
      (match e with
        | .send_unix_msg sockd response => [(sockd, response)]
        | _ => []) ++ sent es := by
  cases e <;> rfl

theorem parsed_cons (e : Event) (es : List Event) :
    parsed (e :: es) =
      (match e with
        | .json_loads buf => [buf]
        | _ => []) ++ parsed es := by
  cases e <;> rfl

theorem scanned_cons (e : Event) (es : List Event) :
    scanned (e :: es) =
      (match e with
        | .safecmp i _ => [i]
        | .read_process i => [i]
        | .out_of_bounds i => [i]
        | _ => []) ++ scanned es := by
  cases e <;> rfl

theorem proc_calls_append (xs ys : List Event) :
    proc_calls (xs ++ ys) = proc_calls xs ++ proc_calls ys := by
  induction xs with
  | nil => rfl
  | cons e es ih => cases e <;> simp [proc_calls, ih]

theorem packed_append (xs ys : List Event) :
    packed (xs ++ ys) = packed xs ++ packed ys := by
  induction xs with
  | nil => rfl
  | cons e es ih => cases e <;> simp [packed, ih]

theorem sent_append (xs ys : List Event) :
    sent (xs ++ ys) = sent xs ++ sent ys := by
  induction xs with
  | nil => rfl
  | cons e es ih => cases e <;> simp [sent, ih]

theorem parsed_append (xs ys : List Event) :
    parsed (xs ++ ys) = parsed xs ++ parsed ys := by
  induction xs with
  | nil => rfl
  | cons e es ih => cases e <;> simp [parsed, ih]

theorem scanned_append (xs ys : List Event) :
    scanned (xs ++ ys) = scanned xs ++ scanned ys := by
  induction xs with
  | nil => rfl
  | cons e es ih => cases e <;> simp [scanned, ih]

theorem proc_calls_out (apimsg : apimsg_t) (val : Option json_t) (p r : Option String) :
    proc_calls (out apimsg val p r) = [] := by
  cases val <;> rfl

theorem packed_out (apimsg : apimsg_t) (val : Option json_t) (p r : Option String) :
    packed (out apimsg val p r) = [] := by
  cases val <;> rfl

theorem sent_out (apimsg : apimsg_t) (val : Option json_t) (p r : Option String) :
    sent (out apimsg val p r) = [] := by
  cases val <;> rfl

theorem scanned_out (apimsg : apimsg_t) (val : Option json_t) (p r : Option String) :
    scanned (out apimsg val p r) = [] := by
  cases val <;> rfl

theorem proc_calls_out_send (env : Env) (apimsg : apimsg_t) (val : Option json_t)
    (p : Option String) (rv : Option json_t) :
    proc_calls (out_send env apimsg val p rv) = [] := by
  unfold out_send
  by_cases hs : env.send_unix_msg apimsg.sockd (env.json_dumps rv
      [dump_flag.JSON_NO_UTF8, dump_flag.JSON_PRESERVE_ORDER]) = false
  · simp [hs, proc_calls, proc_calls_out]
  · by_cases hw : env.wait_close apimsg.sockd 5 = false <;>
      simp [hs, hw, proc_calls, proc_calls_append, proc_calls_out]

theorem packed_out_send (env : Env) (apimsg : apimsg_t) (val : Option json_t)
    (p : Option String) (rv : Option json_t) :
    packed (out_send env apimsg val p rv) = [] := by
  unfold out_send
  by_cases hs : env.send_unix_msg apimsg.sockd (env.json_dumps rv
      [dump_flag.JSON_NO_UTF8, dump_flag.JSON_PRESERVE_ORDER]) = false
  · simp [hs, packed, packed_out]
  · by_cases hw : env.wait_close apimsg.sockd 5 = false <;>
      simp [hs, hw, packed, packed_append, packed_out]

theorem scanned_out_send (env : Env) (apimsg : apimsg_t) (val : Option json_t)
    (p : Option String) (rv : Option json_t) :
    scanned (out_send env apimsg val p rv) = [] := by
  unfold out_send
  by_cases hs : env.send_unix_msg apimsg.sockd (env.json_dumps rv
      [dump_flag.JSON_NO_UTF8, dump_flag.JSON_PRESERVE_ORDER]) = false
  · simp [hs, scanned, scanned_out]
  · by_cases hw : env.wait_close apimsg.sockd 5 = false <;>
      simp [hs, hw, scanned, scanned_append, scanned_out]

theorem sent_out_send (env : Env) (apimsg : apimsg_t) (val : Option json_t)
    (p : Option String) (rv : Option json_t) :
    sent (out_send env apimsg val p rv) =
      [(apimsg.sockd, env.json_dumps rv dumps_flags)] := by
  unfold out_send
  by_cases hs : env.send_unix_msg apimsg.sockd (env.json_dumps rv
      [dump_flag.JSON_NO_UTF8, dump_flag.JSON_PRESERVE_ORDER]) = false
  · simp [hs, sent, sent_out, dumps_flags]
  · by_cases hw : env.wait_close apimsg.sockd 5 = false <;>
      simp [hs, hw, sent, sent_append, sent_out, dumps_flags]

/-- The run on a payload that decodes to a value whose `command` member is the
string `cmd`: everything up to the end of the scan, then the branch the scan
result selects. -/
theorem ckpool_api_command (env : Env) (apimsg : apimsg_t) (buf : String) (val : json_t)
    (cmd : String) (hbuf : apimsg.buf = some buf) (hne : buf ≠ "")
    (hload : env.json_loads buf = .ok val)
    (hcmd : json_object_get val "command" = some (.string cmd)) :
    ckpool_api env apimsg =
      .LOGDEBUG "API received request %s" [.s (some buf)] ::
      .json_loads buf ::
      .json_get_string "command" ::
      .json_object_get "params" :: ((scan cmd api_cmds 0).1 ++
      match (scan cmd api_cmds 0).2 with
      | .out_of_bounds _ => []
      | .not_found =>
        .LOGWARNING "Failed to find matching API command %s" [.s (some cmd)] ::
        .JSON_CPACK (some (error_envelope (-3) "Unknown command")) ::
        out_send env apimsg (some val) none (some (error_envelope (-3) "Unknown command"))
      | .found _ ac => dispatch env apimsg val (json_object_get val "params") ac) := by
  have hlen : strlen buf ≠ 0 := fun h => hne ((strlen_eq_zero_iff buf).1 h)
  simp only [ckpool_api, hbuf, hlen, if_false, hload, json_get_string, hcmd, List.cons_append,
    pack_error_eq]

/-- The run of `dispatch` for an entry that passes the params check and whose
process has a channel, by the reply of that channel. -/
theorem dispatch_call (env : Env) (apimsg : apimsg_t) (val : json_t) (params : Option json_t)
    (ac : api_command) (pi : proc_instance)
    (hpar : ¬ (ac.params = true ∧ params.isNone))
    (hpi : switch_process ac.process = some pi) :
    dispatch env apimsg val params ac =
      match env.send_recv_proc pi ac.proccmd with
      | none =>
        .send_recv_proc pi ac.proccmd ::
        .LOGWARNING "Failed to get API response from process %d to command %s msg %s"
          [.d ac.process, .s (some ac.proccmd), .s apimsg.buf] ::
        .JSON_CPACK (some (error_envelope (-4) "No process response")) ::
        out_send env apimsg (some val) none
          (some (error_envelope (-4) "No process response"))
      | some r =>
        .send_recv_proc pi ac.proccmd ::
        .JSON_CPACK (some (reply_envelope r)) ::
        out_send env apimsg (some val) (some r) (some (reply_envelope r)) := by
  unfold dispatch
  rw [if_neg hpar]
  simp only [hpi]
  cases hr : env.send_recv_proc pi ac.proccmd with
  | none => simp [pack_error_eq]
  | some r => simp [pack_reply_eq]

/-- The run on a non-empty payload the parser rejects. -/
theorem ckpool_api_invalid (env : Env) (apimsg : apimsg_t) (buf : String)
    (err_val : json_error_t) (hbuf : apimsg.buf = some buf) (hne : buf ≠ "")
    (hload : env.json_loads buf = .error err_val) :
    ckpool_api env apimsg =
      .LOGDEBUG "API received request %s" [.s (some buf)] ::
      .json_loads buf ::
      .LOGWARNING "Failed to JSON decode API message \"%s\" (%d):%s"
        [.s (some buf), .d err_val.line, .s (some err_val.text)] ::
      .JSON_CPACK (some (error_envelope (-1) "Invalid json")) ::
      out_send env apimsg none none (some (error_envelope (-1) "Invalid json")) := by
  have hlen : strlen buf ≠ 0 := fun h => hne ((strlen_eq_zero_iff buf).1 h)
  simp only [ckpool_api, hbuf, hlen, if_false, hload, pack_error_eq]

/-- The run on a payload that parses to a value without a string `command`. -/
theorem ckpool_api_no_command (env : Env) (apimsg : apimsg_t) (buf : String) (val : json_t)
    (hbuf : apimsg.buf = some buf) (hne : buf ≠ "")
    (hload : env.json_loads buf = .ok val)
    (hcmd : ∀ s, json_object_get val "command" ≠ some (.string s)) :
    ckpool_api env apimsg =
      .LOGDEBUG "API received request %s" [.s (some buf)] ::
      .json_loads buf ::
      .json_get_string "command" ::
      .LOGWARNING "Failed to find API command in message \"%s\"" [.s (some buf)] ::
      .JSON_CPACK (some (error_envelope (-2) "No command")) ::
      out_send env apimsg (some val) none (some (error_envelope (-2) "No command")) := by
  have hlen : strlen buf ≠ 0 := fun h => hne ((strlen_eq_zero_iff buf).1 h)
  have hget : json_get_string val "command" = none := by
    unfold json_get_string
    split
    · next s h => exact absurd h (hcmd s)
    · rfl
  simp only [ckpool_api, hbuf, hlen, if_false, hload, hget, pack_error_eq]

/-- The run on a registered command: the scan ends at the row `ac`, and the
rest is `dispatch` on it. -/
theorem ckpool_api_registered (env : Env) (apimsg : apimsg_t) (buf : String) (val : json_t)
    (ac : api_command) (hbuf : apimsg.buf = some buf) (hne : buf ≠ "")
    (hload : env.json_loads buf = .ok val)
    (hcmd : json_object_get val "command" = some (.string ac.cmd))
    (hrow : ac ∈ api_cmds) (hproc : ac.process ≠ -1) :
    ckpool_api env apimsg =
      .LOGDEBUG "API received request %s" [.s (some buf)] ::
      .json_loads buf ::
      .json_get_string "command" ::
      .json_object_get "params" :: ((scan ac.cmd api_cmds 0).1 ++
        dispatch env apimsg val (json_object_get val "params") ac) := by
  rw [ckpool_api_command env apimsg buf val ac.cmd hbuf hne hload hcmd]
  simp only [api_cmds, List.mem_cons, List.mem_singleton, List.not_mem_nil, or_false] at hrow
  rcases hrow with h | h | h | h
  · subst h; rfl
  · subst h; rfl
  · subst h; rfl
  · subst h; exact absurd rfl hproc

/-- No row of the registry asks for params. -/
theorem api_cmds_params (ac : api_command) (hrow : ac ∈ api_cmds) : ac.params = false := by
  simp only [api_cmds, List.mem_cons, List.mem_singleton, List.not_mem_nil, or_false] at hrow
  rcases hrow with h | h | h | h <;> subst h <;> rfl

theorem switch_process_sentinel (process : Int) (pi : proc_instance)
    (h : switch_process process = some pi) : process ≠ -1 := by
  intro hp
  subst hp
  simp [switch_process, PROC_MAIN, PROC_GENERATOR, PROC_STRATIFER, PROC_CONNECTOR] at h

theorem proc_calls_scan (cmd : String) (tbl : List api_command) (i : Nat) :
    proc_calls (scan cmd tbl i).1 = [] := by
  induction tbl generalizing i with
  | nil => rfl
  | cons row rest ih =>
    unfold scan
    split_ifs with h
    · rfl
    · cases rest with
      | nil => rfl
      | cons next rest' =>
        simp only
        split_ifs with hn
        · simp only [proc_calls_cons, List.nil_append]
          exact ih (i + 1)
        · rfl

theorem packed_scan (cmd : String) (tbl : List api_command) (i : Nat) :
    packed (scan cmd tbl i).1 = [] := by
  induction tbl generalizing i with
  | nil => rfl
  | cons row rest ih =>
    unfold scan
    split_ifs with h
    · rfl
    · cases rest with
      | nil => rfl
      | cons next rest' =>
        simp only
        split_ifs with hn
        · simp only [packed_cons, List.nil_append]
          exact ih (i + 1)
        · rfl

theorem sent_scan (cmd : String) (tbl : List api_command) (i : Nat) :
    sent (scan cmd tbl i).1 = [] := by
  induction tbl generalizing i with
  | nil => rfl
  | cons row rest ih =>
    unfold scan
    split_ifs with h
    · rfl
    · cases rest with
      | nil => rfl
      | cons next rest' =>
        simp only
        split_ifs with hn
        · simp only [sent_cons, List.nil_append]
          exact ih (i + 1)
        · rfl

/-- The run of `dispatch` for an entry that asks for params when there are
none. -/
theorem dispatch_missing_params (env : Env) (apimsg : apimsg_t) (val : json_t)
    (ac : api_command) (hpar : ac.params = true) :
    dispatch env apimsg val none ac =
      .LOGWARNING "Failed to find mandatory params in API command %s" [.s apimsg.buf] ::
      .JSON_CPACK (some (error_envelope (-4) "Missing params")) ::
      out_send env apimsg (some val) none (some (error_envelope (-4) "Missing params")) := by
  simp [dispatch, hpar, pack_error_eq]

/-- The run of `dispatch` for an entry whose process has no case in the
switch. -/
theorem dispatch_no_channel (env : Env) (apimsg : apimsg_t) (val : json_t)
    (params : Option json_t) (ac : api_command)
    (hpar : ¬ (ac.params = true ∧ params.isNone))
    (hpi : switch_process ac.process = none) :
    dispatch env apimsg val params ac =
      .LOGWARNING "Failed to get API response from process %d to command %s msg %s"
        [.d ac.process, .s (some ac.proccmd), .s apimsg.buf] ::
      .JSON_CPACK (some (error_envelope (-4) "No process response")) ::
      out_send env apimsg (some val) none
        (some (error_envelope (-4) "No process response")) := by
  unfold dispatch
  rw [if_neg hpar]
  simp [hpi, pack_error_eq]

theorem close_not_mem_scan (sockd : Int) (cmd : String) (tbl : List api_command) (i : Nat) :
    Event.close sockd ∉ (scan cmd tbl i).1 := by
  induction tbl generalizing i with
  | nil => simp [scan]
  | cons row rest ih =>
    unfold scan
    split_ifs with h
    · simp
    · cases rest with
      | nil => simp
      | cons next rest' =>
        simp only
        split_ifs with hn
        · simp only [List.mem_cons, not_or]
          exact ⟨by simp, by simp, ih (i + 1)⟩
        · simp

/-- The code from `out_send:` on: the serialisation, the send attempt, and a
rest that closes the socket and neither builds nor sends anything more. -/
theorem out_send_shape (env : Env) (apimsg : apimsg_t) (val : Option json_t)
    (p : Option String) (rv : Option json_t) :
    ∃ post, out_send env apimsg val p rv =
        .json_dumps rv dumps_flags ::
        .send_unix_msg apimsg.sockd (env.json_dumps rv dumps_flags) :: post ∧
      Event.close apimsg.sockd ∈ post ∧ packed post = [] ∧ sent post = [] := by
  unfold out_send
  by_cases hs : env.send_unix_msg apimsg.sockd (env.json_dumps rv
      [dump_flag.JSON_NO_UTF8, dump_flag.JSON_PRESERVE_ORDER]) = false
  · refine ⟨.LOGWARNING "Failed to send API response: %s to sockd %d"
        [.s (env.json_dumps rv dumps_flags), .d apimsg.sockd] ::
        out apimsg val p (env.json_dumps rv dumps_flags), ?_, ?_, ?_, ?_⟩
    · simp only [hs, if_true, dumps_flags]
    · cases val <;> simp [out]
    · simp [packed_cons, packed_out]
    · simp [sent_cons, sent_out]
  · refine ⟨.wait_close apimsg.sockd 5 ::
        ((if env.wait_close apimsg.sockd 5 = false then
            [.LOGWARNING "ckpool_api did not detect close from sockd %d" [.d apimsg.sockd]]
          else []) ++
         out apimsg val p (env.json_dumps rv dumps_flags)), ?_, ?_, ?_, ?_⟩
    · simp [hs, dumps_flags]
    · cases val <;> simp [out]
    · by_cases hw : env.wait_close apimsg.sockd 5 = false <;>
        simp [hw, packed_cons, packed_append, packed_out]
    · by_cases hw : env.wait_close apimsg.sockd 5 = false <;>
        simp [hw, sent_cons, sent_append, sent_out]

/-- Every registered name is the name of a row of the registry whose process
has a channel. -/
theorem registered_row (cmd : String)
    (h : cmd = "connector.stats" ∨ cmd = "stratifier.stats" ∨ cmd = "generator.stats") :
    ∃ ac pi, ac ∈ api_cmds ∧ ac.cmd = cmd ∧ switch_process ac.process = some pi := by
  rcases h with h | h | h
  · exact ⟨⟨"connector.stats", PROC_CONNECTOR, "stats", false⟩, .connector, by decide,
      h.symm, rfl⟩
  · exact ⟨⟨"stratifier.stats", PROC_STRATIFER, "stats", false⟩, .stratifier, by decide,
      h.symm, rfl⟩
  · exact ⟨⟨"generator.stats", PROC_GENERATOR, "stats", false⟩, .generator, by decide,
      h.symm, rfl⟩

/-- The shape of every run on a non-empty payload: a prefix that builds and
sends nothing and does not close the socket, one envelope, and the code from
`out_send:` on.  The envelope is a failure envelope, or the reply envelope of a
reply some sibling contacted in the prefix gave. -/
theorem ckpool_api_shape (env : Env) (apimsg : apimsg_t) (buf : String)
    (hbuf : apimsg.buf = some buf) (hne : buf ≠ "") :
    ∃ (pre : List Event) (e : json_t) (val : Option json_t) (p : Option String),
      ckpool_api env apimsg =
        pre ++ .JSON_CPACK (some e) :: out_send env apimsg val p (some e) ∧
      packed pre = [] ∧ sent pre = [] ∧ Event.close apimsg.sockd ∉ pre ∧
      ((∃ code msg, e = error_envelope code msg) ∨
       (∃ pi proccmd r, (pi, proccmd) ∈ proc_calls pre ∧
          env.send_recv_proc pi proccmd = some r ∧ e = reply_envelope r)) := by
  cases hload : env.json_loads buf with
  | error err_val =>
    refine ⟨[.LOGDEBUG "API received request %s" [.s (some buf)], .json_loads buf,
      .LOGWARNING "Failed to JSON decode API message \"%s\" (%d):%s"
        [.s (some buf), .d err_val.line, .s (some err_val.text)]],
      error_envelope (-1) "Invalid json", none, none, ?_,
      rfl, rfl, by simp, Or.inl ⟨_, _, rfl⟩⟩
    rw [ckpool_api_invalid env apimsg buf err_val hbuf hne hload]
    rfl
  | ok val =>
    by_cases hc : ∃ cmd, json_object_get val "command" = some (.string cmd)
    · obtain ⟨cmd, hcmd⟩ := hc
      by_cases hreg : cmd = "connector.stats" ∨ cmd = "stratifier.stats" ∨
          cmd = "generator.stats"
      · obtain ⟨ac, pi, hrow, hname, hpi⟩ := registered_row cmd hreg
        subst hname
        have hproc := switch_process_sentinel ac.process pi hpi
        have hpar : ¬ (ac.params = true ∧ (json_object_get val "params").isNone) := by
          simp [api_cmds_params ac hrow]
        rw [ckpool_api_registered env apimsg buf val ac hbuf hne hload hcmd hrow hproc,
          dispatch_call env apimsg val _ ac pi hpar hpi]
        cases hr : env.send_recv_proc pi ac.proccmd with
        | none =>
          refine ⟨.LOGDEBUG "API received request %s" [.s (some buf)] :: .json_loads buf ::
            .json_get_string "command" :: .json_object_get "params" ::
            ((scan ac.cmd api_cmds 0).1 ++ [.send_recv_proc pi ac.proccmd,
              .LOGWARNING "Failed to get API response from process %d to command %s msg %s"
                [.d ac.process, .s (some ac.proccmd), .s apimsg.buf]]),
            error_envelope (-4) "No process response", some val, none,
            by simp, ?_, ?_, ?_, Or.inl ⟨_, _, rfl⟩⟩
          · simp [packed_cons, packed_append, packed_scan]
          · simp [sent_cons, sent_append, sent_scan]
          · simp [close_not_mem_scan]
        | some r =>
          refine ⟨.LOGDEBUG "API received request %s" [.s (some buf)] :: .json_loads buf ::
            .json_get_string "command" :: .json_object_get "params" ::
            ((scan ac.cmd api_cmds 0).1 ++ [.send_recv_proc pi ac.proccmd]),
            reply_envelope r, some val,
            some r, by simp, ?_, ?_, ?_, Or.inr ⟨pi, ac.proccmd, r, ?_, hr, rfl⟩⟩
          · simp [packed_cons, packed_append, packed_scan]
          · simp [sent_cons, sent_append, sent_scan]
          · simp [close_not_mem_scan]
          · simp [proc_calls_cons, proc_calls_append, proc_calls_scan]
      · simp only [not_or] at hreg
        obtain ⟨h0, h1, h2⟩ := hreg
        rw [ckpool_api_command env apimsg buf val cmd hbuf hne hload hcmd, scan_api_cmds_eq]
        simp only [h0, h1, h2, if_false]
        refine ⟨[.LOGDEBUG "API received request %s" [.s (some buf)], .json_loads buf,
            .json_get_string "command", .json_object_get "params",
            .safecmp 0 cmd, .read_process 1, .safecmp 1 cmd, .read_process 2,
            .safecmp 2 cmd, .read_process 3,
            .LOGWARNING "Failed to find matching API command %s" [.s (some cmd)]],
          error_envelope (-3) "Unknown command",
          some val, none, by simp, rfl, rfl, by simp, Or.inl ⟨_, _, rfl⟩⟩
    · have hcmd : ∀ s, json_object_get val "command" ≠ some (.string s) :=
        fun s h => hc ⟨s, h⟩
      refine ⟨[.LOGDEBUG "API received request %s" [.s (some buf)], .json_loads buf,
          .json_get_string "command",
          .LOGWARNING "Failed to find API command in message \"%s\"" [.s (some buf)]],
        error_envelope (-2) "No command",
        some val, none, ?_, rfl, rfl, by simp, Or.inl ⟨_, _, rfl⟩⟩
      rw [ckpool_api_no_command env apimsg buf val hbuf hne hload hcmd]
      rfl

/-- The shape of every run of `dispatch`, for an arbitrary resolved entry: the
same as that of `ckpool_api`. -/
theorem dispatch_shape (env : Env) (apimsg : apimsg_t) (val : json_t)
    (params : Option json_t) (ac : api_command) :
    ∃ (pre : List Event) (e : json_t) (p : Option String),
      dispatch env apimsg val params ac =
        pre ++ .JSON_CPACK (some e) :: out_send env apimsg (some val) p (some e) ∧
      packed pre = [] ∧ sent pre = [] ∧ Event.close apimsg.sockd ∉ pre ∧
      ((∃ code msg, e = error_envelope code msg) ∨
       (∃ pi proccmd r, (pi, proccmd) ∈ proc_calls pre ∧
          env.send_recv_proc pi proccmd = some r ∧ e = reply_envelope r)) := by
  by_cases hchk : ac.params = true ∧ params.isNone
  · have hnone : params = none := by
      cases params with
      | none => rfl
      | some v => simp at hchk
    subst hnone
    refine ⟨[.LOGWARNING "Failed to find mandatory params in API command %s" [.s apimsg.buf]],
      error_envelope (-4) "Missing params", none, ?_, rfl, rfl, by simp, Or.inl ⟨_, _, rfl⟩⟩
    rw [dispatch_missing_params env apimsg val ac hchk.1]
    rfl
  · cases hpi : switch_process ac.process with
    | none =>
      refine ⟨[.LOGWARNING "Failed to get API response from process %d to command %s msg %s"
          [.d ac.process, .s (some ac.proccmd), .s apimsg.buf]],
        error_envelope (-4) "No process response", none, ?_, rfl, rfl, by simp,
        Or.inl ⟨_, _, rfl⟩⟩
      rw [dispatch_no_channel env apimsg val params ac hchk hpi]
      rfl
    | some pi =>
      rw [dispatch_call env apimsg val params ac pi hchk hpi]
      cases hr : env.send_recv_proc pi ac.proccmd with
      | none =>
        exact ⟨[.send_recv_proc pi ac.proccmd,
            .LOGWARNING "Failed to get API response from process %d to command %s msg %s"
              [.d ac.process, .s (some ac.proccmd), .s apimsg.buf]],
          error_envelope (-4) "No process response", none, rfl, rfl, rfl, by simp,
          Or.inl ⟨_, _, rfl⟩⟩
      | some r =>
        exact ⟨[.send_recv_proc pi ac.proccmd], reply_envelope r, some r, rfl, rfl, rfl,
          by simp, Or.inr ⟨pi, ac.proccmd, r, by simp [proc_calls_cons], hr, rfl⟩⟩

/-! ## Helper lemmas for the further readings of a run -/

@[simp] theorem sock_ops_nil : sock_ops [] = [] := rfl

@[simp] theorem released_nil : released [] = [] := rfl

@[simp] theorem freed_replies_nil : freed_replies [] = [] := rfl

@[simp] theorem waits_nil : waits [] = [] := rfl

theorem sock_ops_cons (e : Event) (es : List Event) :
    sock_ops (e :: es) =
      (match e with
        | .send_unix_msg sockd _ => [(sock_op.send, sockd)]
        | .wait_close sockd _ => [(sock_op.wait, sockd)]
        | .close sockd => [(sock_op.close, sockd)]
        | _ => []) ++ sock_ops es := by
  cases e <;> rfl

theorem released_cons (e : Event) (es : List Event) :
    released (e :: es) =
      (match e with
        | .json_decref val => [val]
        | _ => []) ++ released es := by
  cases e <;> rfl

theorem freed_replies_cons (e : Event) (es : List Event) :
    freed_replies (e :: es) =
      (match e with
        | .free (.procresponse p) => [p]
        | _ => []) ++ freed_replies es := by
  cases e with
  | free obj => cases obj <;> rfl
  | _ => rfl

theorem waits_cons (e : Event) (es : List Event) :
    waits (e :: es) =
      (match e with
        | .wait_close sockd timeout => [(sockd, timeout)]
        | _ => []) ++ waits es := by
  cases e <;> rfl

theorem sock_ops_append (xs ys : List Event) :
    sock_ops (xs ++ ys) = sock_ops xs ++ sock_ops ys := by
  induction xs with
  | nil => rfl
  | cons e es ih => rw [List.cons_append, sock_ops_cons, sock_ops_cons, ih, List.append_assoc]

theorem released_append (xs ys : List Event) :
    released (xs ++ ys) = released xs ++ released ys := by
  induction xs with
  | nil => rfl
  | cons e es ih => rw [List.cons_append, released_cons, released_cons, ih, List.append_assoc]

theorem freed_replies_append (xs ys : List Event) :
    freed_replies (xs ++ ys) = freed_replies xs ++ freed_replies ys := by
  induction xs with
  | nil => rfl
  | cons e es ih =>
    rw [List.cons_append, freed_replies_cons, freed_replies_cons, ih, List.append_assoc]

theorem waits_append (xs ys : List Event) :
    waits (xs ++ ys) = waits xs ++ waits ys := by
  induction xs with
  | nil => rfl
  | cons e es ih => rw [List.cons_append, waits_cons, waits_cons, ih, List.append_assoc]

/-- The scan makes no call but its reads of the registry. -/
theorem scan_events (cmd : String) (tbl : List api_command) (i : Nat) :
    ∀ e ∈ (scan cmd tbl i).1, is_scan_event e = true := by
  induction tbl generalizing i with
  | nil => simp [scan, is_scan_event]
  | cons row rest ih =>
    unfold scan
    split_ifs with h
    · simp [is_scan_event]
    · cases rest with
      | nil => simp [is_scan_event]
      | cons next rest' =>
        simp only
        split_ifs with hn
        · intro e he
          simp only [List.mem_cons] at he
          rcases he with he | he | he
          · subst he; rfl
          · subst he; rfl
          · exact ih (i + 1) e he
        · simp [is_scan_event]

theorem sock_ops_of_scan_events (l : List Event) (h : ∀ e ∈ l, is_scan_event e = true) :
    sock_ops l = [] := by
  induction l with
  | nil => rfl
  | cons e es ih =>
    have he := h e (List.mem_cons_self e es)
    have hes := ih (fun x hx => h x (List.mem_cons_of_mem e hx))
    cases e <;> simp_all [sock_ops_cons, is_scan_event]

theorem released_of_scan_events (l : List Event) (h : ∀ e ∈ l, is_scan_event e = true) :
    released l = [] := by
  induction l with
  | nil => rfl
  | cons e es ih =>
    have he := h e (List.mem_cons_self e es)
    have hes := ih (fun x hx => h x (List.mem_cons_of_mem e hx))
    cases e <;> simp_all [released_cons, is_scan_event]

theorem freed_replies_of_scan_events (l : List Event)
    (h : ∀ e ∈ l, is_scan_event e = true) : freed_replies l = [] := by
  induction l with
  | nil => rfl
  | cons e es ih =>
    have he := h e (List.mem_cons_self e es)
    have hes := ih (fun x hx => h x (List.mem_cons_of_mem e hx))
    cases e <;> simp_all [freed_replies_cons, is_scan_event]

theorem waits_of_scan_events (l : List Event) (h : ∀ e ∈ l, is_scan_event e = true) :
    waits l = [] := by
  induction l with
  | nil => rfl
  | cons e es ih =>
    have he := h e (List.mem_cons_self e es)
    have hes := ih (fun x hx => h x (List.mem_cons_of_mem e hx))
    cases e <;> simp_all [waits_cons, is_scan_event]

theorem parsed_of_scan_events (l : List Event) (h : ∀ e ∈ l, is_scan_event e = true) :
    parsed l = [] := by
  induction l with
  | nil => rfl
  | cons e es ih =>
    have he := h e (List.mem_cons_self e es)
    have hes := ih (fun x hx => h x (List.mem_cons_of_mem e hx))
    cases e <;> simp_all [parsed_cons, is_scan_event]

theorem sock_ops_scan (cmd : String) (tbl : List api_command) (i : Nat) :
    sock_ops (scan cmd tbl i).1 = [] :=
  sock_ops_of_scan_events _ (scan_events cmd tbl i)

theorem released_scan (cmd : String) (tbl : List api_command) (i : Nat) :
    released (scan cmd tbl i).1 = [] :=
  released_of_scan_events _ (scan_events cmd tbl i)

theorem freed_replies_scan (cmd : String) (tbl : List api_command) (i : Nat) :
    freed_replies (scan cmd tbl i).1 = [] :=
  freed_replies_of_scan_events _ (scan_events cmd tbl i)

theorem waits_scan (cmd : String) (tbl : List api_command) (i : Nat) :
    waits (scan cmd tbl i).1 = [] :=
  waits_of_scan_events _ (scan_events cmd tbl i)

theorem parsed_scan (cmd : String) (tbl : List api_command) (i : Nat) :
    parsed (scan cmd tbl i).1 = [] :=
  parsed_of_scan_events _ (scan_events cmd tbl i)

theorem sock_ops_out (apimsg : apimsg_t) (val : Option json_t) (p r : Option String) :
    sock_ops (out apimsg val p r) = [(.close, apimsg.sockd)] := by
  cases val <;> rfl

theorem released_out (apimsg : apimsg_t) (val : Option json_t) (p r : Option String) :
    released (out apimsg val p r) = val.toList := by
  cases val <;> rfl

theorem freed_replies_out (apimsg : apimsg_t) (val : Option json_t) (p r : Option String) :
    freed_replies (out apimsg val p r) = [p] := by
  cases val <;> rfl

theorem waits_out (apimsg : apimsg_t) (val : Option json_t) (p r : Option String) :
    waits (out apimsg val p r) = [] := by
  cases val <;> rfl

theorem parsed_out (apimsg : apimsg_t) (val : Option json_t) (p r : Option String) :
    parsed (out apimsg val p r) = [] := by
  cases val <;> rfl

/-- The code from `out_send:` on, with the part between the send and the
cleanup named: the warning of a failed send, or the wait with its warning when
the close is not seen. -/
theorem out_send_eq (env : Env) (apimsg : apimsg_t) (val : Option json_t)
    (p : Option String) (rv : Option json_t) :
    out_send env apimsg val p rv =
      .json_dumps rv dumps_flags ::
      .send_unix_msg apimsg.sockd (env.json_dumps rv dumps_flags) ::
      ((if env.send_unix_msg apimsg.sockd (env.json_dumps rv dumps_flags) = false then
          [.LOGWARNING "Failed to send API response: %s to sockd %d"
            [.s (env.json_dumps rv dumps_flags), .d apimsg.sockd]]
        else if env.wait_close apimsg.sockd 5 = false then
          [.wait_close apimsg.sockd 5,
           .LOGWARNING "ckpool_api did not detect close from sockd %d" [.d apimsg.sockd]]
        else [.wait_close apimsg.sockd 5]) ++
       out apimsg val p (env.json_dumps rv dumps_flags)) := by
  unfold out_send
  simp only [dumps_flags]
  by_cases hs : env.send_unix_msg apimsg.sockd (env.json_dumps rv
      [dump_flag.JSON_NO_UTF8, dump_flag.JSON_PRESERVE_ORDER]) = false
  · simp [hs]
  · by_cases hw : env.wait_close apimsg.sockd 5 = false <;> simp [hs, hw]

theorem sock_ops_out_send (env : Env) (apimsg : apimsg_t) (val : Option json_t)
    (p : Option String) (rv : Option json_t) :
    sock_ops (out_send env apimsg val p rv) =
      (.send, apimsg.sockd) ::
      ((if env.send_unix_msg apimsg.sockd (env.json_dumps rv dumps_flags) = false then []
        else [(.wait, apimsg.sockd)]) ++ [(.close, apimsg.sockd)]) := by
  rw [out_send_eq]
  by_cases hs : env.send_unix_msg apimsg.sockd (env.json_dumps rv dumps_flags) = false
  · simp [hs, sock_ops_cons, sock_ops_out]
  · by_cases hw : env.wait_close apimsg.sockd 5 = false <;>
      simp [hs, hw, sock_ops_cons, sock_ops_out]

theorem released_out_send (env : Env) (apimsg : apimsg_t) (val : Option json_t)
    (p : Option String) (rv : Option json_t) :
    released (out_send env apimsg val p rv) = val.toList := by
  rw [out_send_eq]
  by_cases hs : env.send_unix_msg apimsg.sockd (env.json_dumps rv dumps_flags) = false
  · simp [hs, released_cons, released_out]
  · by_cases hw : env.wait_close apimsg.sockd 5 = false <;>
      simp [hs, hw, released_cons, released_out]

theorem freed_replies_out_send (env : Env) (apimsg : apimsg_t) (val : Option json_t)
    (p : Option String) (rv : Option json_t) :
    freed_replies (out_send env apimsg val p rv) = [p] := by
  rw [out_send_eq]
  by_cases hs : env.send_unix_msg apimsg.sockd (env.json_dumps rv dumps_flags) = false
  · simp [hs, freed_replies_cons, freed_replies_out]
  · by_cases hw : env.wait_close apimsg.sockd 5 = false <;>
      simp [hs, hw, freed_replies_cons, freed_replies_out]

theorem waits_out_send (env : Env) (apimsg : apimsg_t) (val : Option json_t)
    (p : Option String) (rv : Option json_t) :
    waits (out_send env apimsg val p rv) =
      if env.send_unix_msg apimsg.sockd (env.json_dumps rv dumps_flags) = false then []
      else [(apimsg.sockd, 5)] := by
  rw [out_send_eq]
  by_cases hs : env.send_unix_msg apimsg.sockd (env.json_dumps rv dumps_flags) = false
  · simp [hs, waits_cons, waits_out]
  · by_cases hw : env.wait_close apimsg.sockd 5 = false <;>
      simp [hs, hw, waits_cons, waits_out]

theorem parsed_out_send (env : Env) (apimsg : apimsg_t) (val : Option json_t)
    (p : Option String) (rv : Option json_t) :
    parsed (out_send env apimsg val p rv) = [] := by
  rw [out_send_eq]
  by_cases hs : env.send_unix_msg apimsg.sockd (env.json_dumps rv dumps_flags) = false
  · simp [hs, parsed_cons, parsed_out]
  · by_cases hw : env.wait_close apimsg.sockd 5 = false <;>
      simp [hs, hw, parsed_cons, parsed_out]

/-- The run on an absent or empty payload. -/
theorem ckpool_api_empty (env : Env) (apimsg : apimsg_t)
    (h : apimsg.buf = none ∨ apimsg.buf = some "") :
    ckpool_api env apimsg =
      .LOGWARNING "Received NULL buffer in ckpool_api" [] :: out apimsg none none none := by
  have hz : strlen "" = 0 := rfl
  rcases h with h | h
  · simp [ckpool_api, h]
  · simp [ckpool_api, h, hz]

/-- Every run of `ckpool_api` is one of six: the payload is absent or empty,
the parser rejects it, the value has no string `command`, the command is not
registered, the sibling of a registered command gives no reply, or it gives
one. -/
theorem ckpool_api_cases (env : Env) (apimsg : apimsg_t) :
    ((apimsg.buf = none ∨ apimsg.buf = some "") ∧
      ckpool_api env apimsg =
        .LOGWARNING "Received NULL buffer in ckpool_api" [] :: out apimsg none none none) ∨
    (∃ buf err_val, apimsg.buf = some buf ∧ buf ≠ "" ∧
      env.json_loads buf = .error err_val ∧
      ckpool_api env apimsg =
        .LOGDEBUG "API received request %s" [.s (some buf)] ::
        .json_loads buf ::
        .LOGWARNING "Failed to JSON decode API message \"%s\" (%d):%s"
          [.s (some buf), .d err_val.line, .s (some err_val.text)] ::
        .JSON_CPACK (some (error_envelope (-1) "Invalid json")) ::
        out_send env apimsg none none (some (error_envelope (-1) "Invalid json"))) ∨
    (∃ buf val, apimsg.buf = some buf ∧ buf ≠ "" ∧ env.json_loads buf = .ok val ∧
      (∀ s, json_object_get val "command" ≠ some (.string s)) ∧
      ckpool_api env apimsg =
        .LOGDEBUG "API received request %s" [.s (some buf)] ::
        .json_loads buf ::
        .json_get_string "command" ::
        .LOGWARNING "Failed to find API command in message \"%s\"" [.s (some buf)] ::
        .JSON_CPACK (some (error_envelope (-2) "No command")) ::
        out_send env apimsg (some val) none (some (error_envelope (-2) "No command"))) ∨
    (∃ buf val cmd, apimsg.buf = some buf ∧ buf ≠ "" ∧ env.json_loads buf = .ok val ∧
      json_object_get val "command" = some (.string cmd) ∧
      cmd ≠ "connector.stats" ∧ cmd ≠ "stratifier.stats" ∧ cmd ≠ "generator.stats" ∧
      ckpool_api env apimsg =
        .LOGDEBUG "API received request %s" [.s (some buf)] ::
        .json_loads buf ::
        .json_get_string "command" ::
        .json_object_get "params" :: ((scan cmd api_cmds 0).1 ++
          .LOGWARNING "Failed to find matching API command %s" [.s (some cmd)] ::
          .JSON_CPACK (some (error_envelope (-3) "Unknown command")) ::
          out_send env apimsg (some val) none
            (some (error_envelope (-3) "Unknown command")))) ∨
    (∃ buf val ac pi, apimsg.buf = some buf ∧ buf ≠ "" ∧ env.json_loads buf = .ok val ∧
      json_object_get val "command" = some (.string ac.cmd) ∧
      ac ∈ api_cmds ∧ switch_process ac.process = some pi ∧
      env.send_recv_proc pi ac.proccmd = none ∧
      ckpool_api env apimsg =
        .LOGDEBUG "API received request %s" [.s (some buf)] ::
        .json_loads buf ::
        .json_get_string "command" ::
        .json_object_get "params" :: ((scan ac.cmd api_cmds 0).1 ++
          .send_recv_proc pi ac.proccmd ::
          .LOGWARNING "Failed to get API response from process %d to command %s msg %s"
            [.d ac.process, .s (some ac.proccmd), .s apimsg.buf] ::
          .JSON_CPACK (some (error_envelope (-4) "No process response")) ::
          out_send env apimsg (some val) none
            (some (error_envelope (-4) "No process response")))) ∨
    (∃ buf val ac pi r, apimsg.buf = some buf ∧ buf ≠ "" ∧ env.json_loads buf = .ok val ∧
      json_object_get val "command" = some (.string ac.cmd) ∧
      ac ∈ api_cmds ∧ switch_process ac.process = some pi ∧
      env.send_recv_proc pi ac.proccmd = some r ∧
      ckpool_api env apimsg =
        .LOGDEBUG "API received request %s" [.s (some buf)] ::
        .json_loads buf ::
        .json_get_string "command" ::
        .json_object_get "params" :: ((scan ac.cmd api_cmds 0).1 ++
          .send_recv_proc pi ac.proccmd ::
          .JSON_CPACK (some (reply_envelope r)) ::
          out_send env apimsg (some val) (some r) (some (reply_envelope r)))) := by
  have hb : apimsg.buf = none ∨ ∃ buf, apimsg.buf = some buf := by
    cases apimsg.buf with
    | none => exact Or.inl rfl
    | some buf => exact Or.inr ⟨buf, rfl⟩
  rcases hb with hbuf | ⟨buf, hbuf⟩
  · exact Or.inl ⟨Or.inl hbuf, ckpool_api_empty env apimsg (Or.inl hbuf)⟩
  · by_cases hne : buf = ""
    · subst hne
      exact Or.inl ⟨Or.inr hbuf, ckpool_api_empty env apimsg (Or.inr hbuf)⟩
    · right
      cases hload : env.json_loads buf with
      | error err_val =>
        exact Or.inl ⟨buf, err_val, hbuf, hne, hload,
          ckpool_api_invalid env apimsg buf err_val hbuf hne hload⟩
      | ok val =>
        right
        by_cases hc : ∃ cmd, json_object_get val "command" = some (.string cmd)
        · right
          obtain ⟨cmd, hcmd⟩ := hc
          by_cases hreg : cmd = "connector.stats" ∨ cmd = "stratifier.stats" ∨
              cmd = "generator.stats"
          · right
            obtain ⟨ac, pi, hrow, hname, hpi⟩ := registered_row cmd hreg
            subst hname
            have hproc := switch_process_sentinel ac.process pi hpi
            have hpar : ¬ (ac.params = true ∧ (json_object_get val "params").isNone) := by
              simp [api_cmds_params ac hrow]
            have hrun := ckpool_api_registered env apimsg buf val ac hbuf hne hload hcmd
              hrow hproc
            rw [dispatch_call env apimsg val _ ac pi hpar hpi] at hrun
            cases hr : env.send_recv_proc pi ac.proccmd with
            | none =>
              simp only [hr] at hrun
              exact Or.inl ⟨buf, val, ac, pi, hbuf, hne, hload, hcmd, hrow, hpi, hr, hrun⟩
            | some r =>
              simp only [hr] at hrun
              exact Or.inr ⟨buf, val, ac, pi, r, hbuf, hne, hload, hcmd, hrow, hpi, hr, hrun⟩
          · simp only [not_or] at hreg
            obtain ⟨h0, h1, h2⟩ := hreg
            have hrun := ckpool_api_command env apimsg buf val cmd hbuf hne hload hcmd
            have hscan : (scan cmd api_cmds 0).2 = .not_found := by
              rw [scan_api_cmds_eq]
              simp only [h0, h1, h2, if_false]
            rw [hscan] at hrun
            exact Or.inl ⟨buf, val, cmd, hbuf, hne, hload, hcmd, h0, h1, h2, hrun⟩
        · exact Or.inl ⟨buf, val, hbuf, hne, hload, fun s h => hc ⟨s, h⟩,
            ckpool_api_no_command env apimsg buf val hbuf hne hload
              (fun s h => hc ⟨s, h⟩)⟩

/-- A payload is absent, empty, or non-empty. -/
theorem buf_cases (apimsg : apimsg_t) :
    (apimsg.buf = none ∨ apimsg.buf = some "") ∨
    ∃ buf, apimsg.buf = some buf ∧ buf ≠ "" := by
  cases h : apimsg.buf with
  | none => exact Or.inl (Or.inl rfl)
  | some buf =>
    by_cases hne : buf = ""
    · subst hne; exact Or.inl (Or.inr rfl)
    · exact Or.inr ⟨buf, rfl, hne⟩

/-- The parsed value a run holds at the cleanup: the result of `json_loads`, or
NULL when parsing failed. -/
theorem ckpool_api_normal (env : Env) (apimsg : apimsg_t) (buf : String)
    (hbuf : apimsg.buf = some buf) (hne : buf ≠ "") :
    ∃ (pre : List Event) (e : json_t) (p : Option String),
      ckpool_api env apimsg =
        pre ++ .JSON_CPACK (some e) ::
          out_send env apimsg
            (match env.json_loads buf with
              | .ok v => some v
              | .error _ => none) p (some e) ∧
      sock_ops pre = [] ∧ released pre = [] ∧ freed_replies pre = [] ∧ waits pre = [] ∧
      packed pre = [] ∧ sent pre = [] ∧ parsed pre = [buf] ∧
      (proc_calls pre = [] ∨ ∃ pi proccmd, proc_calls pre = [(pi, proccmd)] ∧
        env.send_recv_proc pi proccmd = p) ∧
      (p = none → ∃ code msg, e = error_envelope code msg ∧
        (code = -1 ∨ code = -2 ∨ code = -3 ∨ code = -4)) ∧
      (∀ r, p = some r → e = reply_envelope r ∧ proc_calls pre ≠ []) := by
  rcases ckpool_api_cases env apimsg with
    ⟨hb, _⟩ | ⟨b, err, hb, _, hload, hrun⟩ | ⟨b, v, hb, _, hload, _, hrun⟩ |
    ⟨b, v, c, hb, _, hload, _, _, _, _, hrun⟩ |
    ⟨b, v, ac, pi, hb, _, hload, _, _, _, hr, hrun⟩ |
    ⟨b, v, ac, pi, r, hb, _, hload, _, _, _, hr, hrun⟩
  · rcases hb with hb | hb
    · rw [hbuf] at hb; cases hb
    · rw [hbuf] at hb; cases hb; exact absurd rfl hne
  · rw [hbuf] at hb; cases hb
    refine ⟨[.LOGDEBUG "API received request %s" [.s (some buf)], .json_loads buf,
        .LOGWARNING "Failed to JSON decode API message \"%s\" (%d):%s"
          [.s (some buf), .d err.line, .s (some err.text)]],
      error_envelope (-1) "Invalid json", none, ?_, rfl, rfl, rfl, rfl, rfl, rfl, rfl,
      Or.inl rfl, fun _ => ⟨_, _, rfl, Or.inl rfl⟩, fun r h => by cases h⟩
    rw [hrun, hload]; rfl
  · rw [hbuf] at hb; cases hb
    refine ⟨[.LOGDEBUG "API received request %s" [.s (some buf)], .json_loads buf,
        .json_get_string "command",
        .LOGWARNING "Failed to find API command in message \"%s\"" [.s (some buf)]],
      error_envelope (-2) "No command", none, ?_, rfl, rfl, rfl, rfl, rfl, rfl, rfl,
      Or.inl rfl, fun _ => ⟨_, _, rfl, Or.inr (Or.inl rfl)⟩, fun r h => by cases h⟩
    rw [hrun, hload]; rfl
  · rw [hbuf] at hb; cases hb
    refine ⟨.LOGDEBUG "API received request %s" [.s (some buf)] :: .json_loads buf ::
        .json_get_string "command" :: .json_object_get "params" ::
        ((scan c api_cmds 0).1 ++
          [.LOGWARNING "Failed to find matching API command %s" [.s (some c)]]),
      error_envelope (-3) "Unknown command", none, ?_, ?_, ?_, ?_, ?_, ?_, ?_, ?_, ?_,
      fun _ => ⟨_, _, rfl, Or.inr (Or.inr (Or.inl rfl))⟩, fun r h => by cases h⟩
    · rw [hrun, hload]; simp
    · simp [sock_ops_cons, sock_ops_append, sock_ops_scan]
    · simp [released_cons, released_append, released_scan]
    · simp [freed_replies_cons, freed_replies_append, freed_replies_scan]
    · simp [waits_cons, waits_append, waits_scan]
    · simp [packed_cons, packed_append, packed_scan]
    · simp [sent_cons, sent_append, sent_scan]
    · simp [parsed_cons, parsed_append, parsed_scan]
    · left; simp [proc_calls_cons, proc_calls_append, proc_calls_scan]
  · rw [hbuf] at hb; cases hb
    refine ⟨.LOGDEBUG "API received request %s" [.s (some buf)] :: .json_loads buf ::
        .json_get_string "command" :: .json_object_get "params" ::
        ((scan ac.cmd api_cmds 0).1 ++
          [.send_recv_proc pi ac.proccmd,
           .LOGWARNING "Failed to get API response from process %d to command %s msg %s"
             [.d ac.process, .s (some ac.proccmd), .s apimsg.buf]]),
      error_envelope (-4) "No process response", none, ?_, ?_, ?_, ?_, ?_, ?_, ?_, ?_, ?_,
      fun _ => ⟨_, _, rfl, Or.inr (Or.inr (Or.inr rfl))⟩, fun r h => by cases h⟩
    · rw [hrun, hload]; simp
    · simp [sock_ops_cons, sock_ops_append, sock_ops_scan]
    · simp [released_cons, released_append, released_scan]
    · simp [freed_replies_cons, freed_replies_append, freed_replies_scan]
    · simp [waits_cons, waits_append, waits_scan]
    · simp [packed_cons, packed_append, packed_scan]
    · simp [sent_cons, sent_append, sent_scan]
    · simp [parsed_cons, parsed_append, parsed_scan]
    · right
      exact ⟨pi, ac.proccmd, by simp [proc_calls_cons, proc_calls_append, proc_calls_scan],
        hr⟩
  · rw [hbuf] at hb; cases hb
    refine ⟨.LOGDEBUG "API received request %s" [.s (some buf)] :: .json_loads buf ::
        .json_get_string "command" :: .json_object_get "params" ::
        ((scan ac.cmd api_cmds 0).1 ++ [.send_recv_proc pi ac.proccmd]),
      reply_envelope r, some r, ?_, ?_, ?_, ?_, ?_, ?_, ?_, ?_, ?_,
      (fun h => by cases h), fun r' h => ?_⟩
    · rw [hrun, hload]; simp
    · simp [sock_ops_cons, sock_ops_append, sock_ops_scan]
    · simp [released_cons, released_append, released_scan]
    · simp [freed_replies_cons, freed_replies_append, freed_replies_scan]
    · simp [waits_cons, waits_append, waits_scan]
    · simp [packed_cons, packed_append, packed_scan]
    · simp [sent_cons, sent_append, sent_scan]
    · simp [parsed_cons, parsed_append, parsed_scan]
    · right
      exact ⟨pi, ac.proccmd, by simp [proc_calls_cons, proc_calls_append, proc_calls_scan],
        hr⟩
    · cases h
      exact ⟨rfl, by simp [proc_calls_cons, proc_calls_append, proc_calls_scan]⟩

/-- The scan finds every registered row under its own name. -/
theorem scan_finds_row (ac : api_command) (hrow : ac ∈ api_cmds) (hproc : ac.process ≠ -1) :
    ∃ i, (scan ac.cmd api_cmds 0).2 = .found i ac ∧ api_cmds[i]? = some ac := by
  simp only [api_cmds, List.mem_cons, List.mem_singleton, List.not_mem_nil, or_false] at hrow
  rcases hrow with h | h | h | h
  · subst h; exact ⟨0, rfl, rfl⟩
  · subst h; exact ⟨1, rfl, rfl⟩
  · subst h; exact ⟨2, rfl, rfl⟩
  · subst h; exact absurd rfl hproc

/-- The name of a registry row with a channel is one of the three registered
names. -/
theorem registered_name (ac : api_command) (hrow : ac ∈ api_cmds) (hproc : ac.process ≠ -1) :
    ac.cmd = "connector.stats" ∨ ac.cmd = "stratifier.stats" ∨ ac.cmd = "generator.stats" := by
  simp only [api_cmds, List.mem_cons, List.mem_singleton, List.not_mem_nil, or_false] at hrow
  rcases hrow with h | h | h | h
  · subst h; exact Or.inl rfl
  · subst h; exact Or.inr (Or.inl rfl)
  · subst h; exact Or.inr (Or.inr rfl)
  · subst h; exact absurd rfl hproc

theorem error_code_error_envelope (code : Int) (msg : String) :
    error_code (error_envelope code msg) = some code := rfl

theorem error_code_reply_envelope (r : String) :
    error_code (reply_envelope r) = none := rfl

/-- The envelopes, the registry reads, the sibling calls and the texts sent in a
run depend only on the payload, the parser's answers and the siblings' replies
(the texts also on the serialiser), not on the caller's socket and channel. -/
theorem ckpool_api_determined (env1 env2 : Env) (msg1 msg2 : apimsg_t)
    (hbuf : msg1.buf = msg2.buf)
    (hparse : ∀ buf, env1.json_loads buf = env2.json_loads buf)
    (hreply : ∀ pi proccmd, env1.send_recv_proc pi proccmd = env2.send_recv_proc pi proccmd) :
    packed (ckpool_api env1 msg1) = packed (ckpool_api env2 msg2) ∧
    scanned (ckpool_api env1 msg1) = scanned (ckpool_api env2 msg2) ∧
    proc_calls (ckpool_api env1 msg1) = proc_calls (ckpool_api env2 msg2) ∧
    ((∀ rv flags, env1.json_dumps rv flags = env2.json_dumps rv flags) →
      (sent (ckpool_api env1 msg1)).map Prod.snd =
        (sent (ckpool_api env2 msg2)).map Prod.snd) := by
  rcases ckpool_api_cases env1 msg1 with
    ⟨hb, hrun⟩ | ⟨b, err, hb, hne, hload, hrun⟩ | ⟨b, v, hb, hne, hload, hcmd, hrun⟩ |
    ⟨b, v, c, hb, hne, hload, hcmd, h0, h1, h2, hrun⟩ |
    ⟨b, v, ac, pi, hb, hne, hload, hcmd, hrow, hpi, hr, hrun⟩ |
    ⟨b, v, ac, pi, r, hb, hne, hload, hcmd, hrow, hpi, hr, hrun⟩
  · rw [hrun, ckpool_api_empty env2 msg2 (by rw [← hbuf]; exact hb)]
    simp [packed_cons, packed_out, scanned_cons, scanned_out, proc_calls_cons,
      proc_calls_out, sent_cons, sent_out]
  · rw [hrun, ckpool_api_invalid env2 msg2 b err (by rw [← hbuf]; exact hb) hne
      (by rw [← hparse]; exact hload)]
    refine ⟨?_, ?_, ?_, fun hd => ?_⟩
    · simp [packed_cons, packed_out_send]
    · simp [scanned_cons, scanned_out_send]
    · simp [proc_calls_cons, proc_calls_out_send]
    · simp [sent_cons, sent_out_send, hd]
  · rw [hrun, ckpool_api_no_command env2 msg2 b v (by rw [← hbuf]; exact hb) hne
      (by rw [← hparse]; exact hload) hcmd]
    refine ⟨?_, ?_, ?_, fun hd => ?_⟩
    · simp [packed_cons, packed_out_send]
    · simp [scanned_cons, scanned_out_send]
    · simp [proc_calls_cons, proc_calls_out_send]
    · simp [sent_cons, sent_out_send, hd]
  · have hscan : (scan c api_cmds 0).2 = .not_found := by
      rw [scan_api_cmds_eq]
      simp only [h0, h1, h2, if_false]
    have hrun2 := ckpool_api_command env2 msg2 b v c (by rw [← hbuf]; exact hb) hne
      (by rw [← hparse]; exact hload) hcmd
    rw [hscan] at hrun2
    rw [hrun, hrun2]
    refine ⟨?_, ?_, ?_, fun hd => ?_⟩
    · simp [packed_cons, packed_append, packed_scan, packed_out_send]
    · simp [scanned_cons, scanned_append, scanned_out_send]
    · simp [proc_calls_cons, proc_calls_append, proc_calls_scan, proc_calls_out_send]
    · simp [sent_cons, sent_append, sent_scan, sent_out_send, hd]
  · have hproc := switch_process_sentinel ac.process pi hpi
    have hpar : ¬ (ac.params = true ∧ (json_object_get v "params").isNone) := by
      simp [api_cmds_params ac hrow]
    have hrun2 := ckpool_api_registered env2 msg2 b v ac (by rw [← hbuf]; exact hb) hne
      (by rw [← hparse]; exact hload) hcmd hrow hproc
    rw [dispatch_call env2 msg2 v _ ac pi hpar hpi, ← hreply, hr] at hrun2
    rw [hrun, hrun2]
    refine ⟨?_, ?_, ?_, fun hd => ?_⟩
    · simp [packed_cons, packed_append, packed_scan, packed_out_send]
    · simp [scanned_cons, scanned_append, scanned_out_send]
    · simp [proc_calls_cons, proc_calls_append, proc_calls_scan, proc_calls_out_send]
    · simp [sent_cons, sent_append, sent_scan, sent_out_send, hd]
  · have hproc := switch_process_sentinel ac.process pi hpi
    have hpar : ¬ (ac.params = true ∧ (json_object_get v "params").isNone) := by
      simp [api_cmds_params ac hrow]
    have hrun2 := ckpool_api_registered env2 msg2 b v ac (by rw [← hbuf]; exact hb) hne
      (by rw [← hparse]; exact hload) hcmd hrow hproc
    rw [dispatch_call env2 msg2 v _ ac pi hpar hpi, ← hreply, hr] at hrun2
    rw [hrun, hrun2]
    refine ⟨?_, ?_, ?_, fun hd => ?_⟩
    · simp [packed_cons, packed_append, packed_scan, packed_out_send]
    · simp [scanned_cons, scanned_append, scanned_out_send]
    · simp [proc_calls_cons, proc_calls_append, proc_calls_scan, proc_calls_out_send]
    · simp [sent_cons, sent_append, sent_scan, sent_out_send, hd]

/-- The calls of the state-explicit function entered in the initial state are
those of `ckpool_api`. -/
theorem ckpool_api_state_init (env : Env) (apimsg : apimsg_t) :
    (ckpool_api_state globals_init env apimsg).1 = ckpool_api env apimsg := by
  unfold ckpool_api_state ckpool_api
  cases apimsg.buf with
  | none => rfl
  | some buf =>
    simp only
    split_ifs with hz
    · rfl
    · cases env.json_loads buf with
      | error err_val => rfl
      | ok val =>
        simp only
        cases json_get_string val "command" with
        | none => rfl
        | some cmd => rfl

/-- On every path the state-explicit function returns in the state it was
entered in. -/
theorem ckpool_api_state_frame (g : globals) (env : Env) (apimsg : apimsg_t) :
    (ckpool_api_state g env apimsg).2 = g := by
  unfold ckpool_api_state
  cases apimsg.buf with
  | none => rfl
  | some buf =>
    simp only
    split_ifs with hz
    · rfl
    · cases env.json_loads buf with
      | error err_val => rfl
      | ok val =>
        simp only
        cases json_get_string val "command" with
        | none => rfl
        | some cmd => rfl

/-! ## The claims -/

/-- C1: command resolution over the fixed registry.  The scan `ckpool_api` runs
over `api_cmds` ends, for each of the three registered names, at exactly the row
registered under that name (process, sub-command and params flag), and for
every other command string with no entry selected; a proper prefix, an
extension, a substring and a differently-cased spelling of a registered name
are among the strings that select nothing. -/
theorem resolve_registered_exactly (cmd : String) :
    (scan cmd api_cmds 0).2 =
      (if cmd = "connector.stats" then
        .found 0 { cmd := "connector.stats", process := PROC_CONNECTOR,
                   proccmd := "stats", params := false }
      else if cmd = "stratifier.stats" then
        .found 1 { cmd := "stratifier.stats", process := PROC_STRATIFER,
                   proccmd := "stats", params := false }
      else if cmd = "generator.stats" then
        .found 2 { cmd := "generator.stats", process := PROC_GENERATOR,
                   proccmd := "stats", params := false }
      else .not_found)
    ∧ (scan "connector.stat" api_cmds 0).2 = .not_found
    ∧ (scan "connector.stats.all" api_cmds 0).2 = .not_found
    ∧ (scan "stats" api_cmds 0).2 = .not_found
    ∧ (scan "Connector.Stats" api_cmds 0).2 = .not_found
    ∧ (scan "GENERATOR.STATS" api_cmds 0).2 = .not_found := by
  refine ⟨?_, rfl, rfl, rfl, rfl, rfl⟩
  rw [scan_api_cmds_eq]
  split_ifs <;> rfl

/-- C2: dispatch routing.  When the payload decodes to a value whose `command`
member is a registered name, with or without a `params` member, the run makes
exactly one send-and-receive: on the connector channel for `connector.stats`,
the stratifier channel for `stratifier.stats`, the generator channel for
`generator.stats` (never the main channel), and the string sent is the
sub-command `stats`. -/
theorem dispatch_routing (env : Env) (apimsg : apimsg_t) (buf : String) (val : json_t)
    (cmd : String) (hbuf : apimsg.buf = some buf) (hne : buf ≠ "")
    (hload : env.json_loads buf = .ok val)
    (hcmd : json_object_get val "command" = some (.string cmd)) :
    (cmd = "connector.stats" →
      proc_calls (ckpool_api env apimsg) = [(.connector, "stats")]) ∧
    (cmd = "stratifier.stats" →
      proc_calls (ckpool_api env apimsg) = [(.stratifier, "stats")]) ∧
    (cmd = "generator.stats" →
      proc_calls (ckpool_api env apimsg) = [(.generator, "stats")]) := by
  have key := ckpool_api_command env apimsg buf val cmd hbuf hne hload hcmd
  refine ⟨?_, ?_, ?_⟩
  · intro h
    subst h
    rw [key, scan_api_cmds_eq]
    simp only [if_true]
    rw [dispatch_call env apimsg val _ ⟨"connector.stats", PROC_CONNECTOR, "stats", false⟩ .connector (by simp) rfl]
    cases env.send_recv_proc .connector "stats" <;>
      simp [proc_calls_cons, proc_calls_out_send]
  · intro h
    subst h
    rw [key, scan_api_cmds_eq]
    simp only [if_true, if_neg (show ¬ "stratifier.stats" = "connector.stats" by decide)]
    rw [dispatch_call env apimsg val _ ⟨"stratifier.stats", PROC_STRATIFER, "stats", false⟩ .stratifier (by simp) rfl]
    cases env.send_recv_proc .stratifier "stats" <;>
      simp [proc_calls_cons, proc_calls_out_send]
  · intro h
    subst h
    rw [key, scan_api_cmds_eq]
    simp only [if_true, if_neg (show ¬ "generator.stats" = "connector.stats" by decide),
      if_neg (show ¬ "generator.stats" = "stratifier.stats" by decide)]
    rw [dispatch_call env apimsg val _ ⟨"generator.stats", PROC_GENERATOR, "stats", false⟩ .generator (by simp) rfl]
    cases env.send_recv_proc .generator "stats" <;>
      simp [proc_calls_cons, proc_calls_out_send]

/-- Witness of C2: the request `{"command": "generator.stats"}` goes to the
generator channel, once, as `stats`. -/
theorem dispatch_routing_witness :
    generator_stats_payload ≠ "" ∧
    proc_calls (ckpool_api (env_generator (some "OK")) (request generator_stats_payload)) =
      [(.generator, "stats")] :=
  ⟨by decide,
    (dispatch_routing (env_generator (some "OK")) (request generator_stats_payload)
      generator_stats_payload generator_stats_value
      "generator.stats" rfl (by decide) rfl rfl).2.2 rfl⟩

/-- C3: success envelope.  For a registered command (a row of `api_cmds` whose
process has a channel) and every reply string `r` the sibling returns, the one
envelope the run builds is the object with the members `result`, `error`,
`response` in that order, `result` false, `error` null and `response` the
one-element array `[r]`; it is what `json_dumps` is given, and the text
`json_dumps` returns for it is the one message sent on the caller's socket. -/
theorem success_envelope (env : Env) (apimsg : apimsg_t) (buf : String) (val : json_t)
    (ac : api_command) (pi : proc_instance) (r : String)
    (hbuf : apimsg.buf = some buf) (hne : buf ≠ "")
    (hload : env.json_loads buf = .ok val)
    (hcmd : json_object_get val "command" = some (.string ac.cmd))
    (hrow : ac ∈ api_cmds) (hpi : switch_process ac.process = some pi)
    (hreply : env.send_recv_proc pi ac.proccmd = some r) :
    packed (ckpool_api env apimsg) =
      [some (.object [("result", .boolean false), ("error", .null),
                      ("response", .array [.string r])])] ∧
    sent (ckpool_api env apimsg) =
      [(apimsg.sockd,
        env.json_dumps
          (some (.object [("result", .boolean false), ("error", .null),
                          ("response", .array [.string r])]))
          [.JSON_NO_UTF8, .JSON_PRESERVE_ORDER])] := by
  have hproc := switch_process_sentinel ac.process pi hpi
  have hpar : ¬ (ac.params = true ∧ (json_object_get val "params").isNone) := by
    simp [api_cmds_params ac hrow]
  rw [ckpool_api_registered env apimsg buf val ac hbuf hne hload hcmd hrow hproc,
    dispatch_call env apimsg val _ ac pi hpar hpi, hreply]
  simp [packed_cons, packed_append, packed_scan, packed_out_send, sent_cons, sent_append,
    sent_scan, sent_out_send, reply_envelope, dumps_flags]

/-- Witness of C3: the request `{"command":"generator.stats"}` with the worker
reply `OK` is answered with `{"result": false, "error": null, "response": ["OK"]}`. -/
theorem success_envelope_witness :
    generator_stats_payload ≠ "" ∧
    packed (ckpool_api (env_generator (some "OK")) (request generator_stats_payload)) =
      [some (.object [("result", .boolean false), ("error", .null),
                      ("response", .array [.string "OK"])])] :=
  ⟨by decide,
    (success_envelope (env_generator (some "OK")) (request generator_stats_payload)
      generator_stats_payload generator_stats_value
      { cmd := "generator.stats", process := PROC_GENERATOR, proccmd := "stats",
        params := false }
      .generator "OK" rfl (by decide) rfl rfl (by decide) rfl rfl).1⟩

/-- C4: unknown command.  When the payload decodes to a value whose `command`
member is a string that is none of the registered names, the one envelope the
run builds and sends is `{"result": false, "error": [-3, "Unknown command"],
"response": null}`, and the run makes no send-and-receive with a sibling. -/
theorem unknown_command (env : Env) (apimsg : apimsg_t) (buf : String) (val : json_t)
    (cmd : String) (hbuf : apimsg.buf = some buf) (hne : buf ≠ "")
    (hload : env.json_loads buf = .ok val)
    (hcmd : json_object_get val "command" = some (.string cmd))
    (h0 : cmd ≠ "connector.stats") (h1 : cmd ≠ "stratifier.stats")
    (h2 : cmd ≠ "generator.stats") :
    packed (ckpool_api env apimsg) =
      [some (.object [("result", .boolean false),
                      ("error", .array [.integer (-3), .string "Unknown command"]),
                      ("response", .null)])] ∧
    sent (ckpool_api env apimsg) =
      [(apimsg.sockd,
        env.json_dumps
          (some (.object [("result", .boolean false),
                          ("error", .array [.integer (-3), .string "Unknown command"]),
                          ("response", .null)]))
          [.JSON_NO_UTF8, .JSON_PRESERVE_ORDER])] ∧
    proc_calls (ckpool_api env apimsg) = [] := by
  rw [ckpool_api_command env apimsg buf val cmd hbuf hne hload hcmd, scan_api_cmds_eq]
  simp [h0, h1, h2, packed_cons, packed_out_send, sent_cons, sent_out_send, proc_calls_cons,
    proc_calls_out_send, error_envelope, dumps_flags]

/-- Witness of C4: the request `{"command":"doesnotexist"}`. -/
theorem unknown_command_witness :
    "doesnotexist" ≠ "connector.stats" ∧ "doesnotexist" ≠ "stratifier.stats" ∧
    "doesnotexist" ≠ "generator.stats" ∧
    proc_calls (ckpool_api
      (sample_env (.ok unknown_value) (some "OK"))
      (request unknown_payload)) = [] :=
  ⟨by decide, by decide, by decide,
    (unknown_command
      (sample_env (.ok unknown_value) (some "OK"))
      (request unknown_payload) unknown_payload unknown_value "doesnotexist"
      rfl (by decide) rfl rfl (by decide) (by decide) (by decide)).2.2⟩

/-- C5: invalid JSON.  For every non-empty payload the parser rejects, whatever
diagnostic line and text it reports, the one envelope the run builds and sends
is `{"result": false, "error": [-1, "Invalid json"], "response": null}` (the
diagnostic is not part of it), and the run contacts no sibling. -/
theorem invalid_json (env : Env) (apimsg : apimsg_t) (buf : String)
    (err_val : json_error_t) (hbuf : apimsg.buf = some buf) (hne : buf ≠ "")
    (hload : env.json_loads buf = .error err_val) :
    packed (ckpool_api env apimsg) =
      [some (.object [("result", .boolean false),
                      ("error", .array [.integer (-1), .string "Invalid json"]),
                      ("response", .null)])] ∧
    sent (ckpool_api env apimsg) =
      [(apimsg.sockd,
        env.json_dumps
          (some (.object [("result", .boolean false),
                          ("error", .array [.integer (-1), .string "Invalid json"]),
                          ("response", .null)]))
          [.JSON_NO_UTF8, .JSON_PRESERVE_ORDER])] ∧
    proc_calls (ckpool_api env apimsg) = [] := by
  rw [ckpool_api_invalid env apimsg buf err_val hbuf hne hload]
  simp [packed_cons, packed_out_send, sent_cons, sent_out_send, proc_calls_cons,
    proc_calls_out_send, error_envelope, dumps_flags]

/-- Witness of C5: the payload `not json at all`, rejected at line 1. -/
theorem invalid_json_witness :
    "not json at all" ≠ "" ∧
    packed (ckpool_api
      (sample_env (.error { line := 1, text := "invalid token near end of file" }) none)
      (request "not json at all")) =
      [some (.object [("result", .boolean false),
                      ("error", .array [.integer (-1), .string "Invalid json"]),
                      ("response", .null)])] :=
  ⟨by decide,
    (invalid_json
      (sample_env (.error { line := 1, text := "invalid token near end of file" }) none)
      (request "not json at all") "not json at all"
      { line := 1, text := "invalid token near end of file" } rfl (by decide) rfl).1⟩

/-- C6: no process response.  For a registered command (a row of `api_cmds`
whose process has a channel) whose send-and-receive returns no reply (NULL),
the one envelope the run builds and sends is `{"result": false, "error": [-4,
"No process response"], "response": null}`. -/
theorem no_process_response (env : Env) (apimsg : apimsg_t) (buf : String) (val : json_t)
    (ac : api_command) (pi : proc_instance)
    (hbuf : apimsg.buf = some buf) (hne : buf ≠ "")
    (hload : env.json_loads buf = .ok val)
    (hcmd : json_object_get val "command" = some (.string ac.cmd))
    (hrow : ac ∈ api_cmds) (hpi : switch_process ac.process = some pi)
    (hreply : env.send_recv_proc pi ac.proccmd = none) :
    packed (ckpool_api env apimsg) =
      [some (.object [("result", .boolean false),
                      ("error", .array [.integer (-4), .string "No process response"]),
                      ("response", .null)])] ∧
    sent (ckpool_api env apimsg) =
      [(apimsg.sockd,
        env.json_dumps
          (some (.object [("result", .boolean false),
                          ("error", .array [.integer (-4), .string "No process response"]),
                          ("response", .null)]))
          [.JSON_NO_UTF8, .JSON_PRESERVE_ORDER])] := by
  have hproc := switch_process_sentinel ac.process pi hpi
  have hpar : ¬ (ac.params = true ∧ (json_object_get val "params").isNone) := by
    simp [api_cmds_params ac hrow]
  rw [ckpool_api_registered env apimsg buf val ac hbuf hne hload hcmd hrow hproc,
    dispatch_call env apimsg val _ ac pi hpar hpi, hreply]
  simp [packed_cons, packed_append, packed_scan, packed_out_send, sent_cons, sent_append,
    sent_scan, sent_out_send, error_envelope, dumps_flags]

/-- Witness of C6: the request `{"command":"generator.stats"}` when the
generator gives no reply. -/
theorem no_process_response_witness :
    generator_stats_payload ≠ "" ∧
    packed (ckpool_api (env_generator none) (request generator_stats_payload)) =
      [some (.object [("result", .boolean false),
                      ("error", .array [.integer (-4), .string "No process response"]),
                      ("response", .null)])] :=
  ⟨by decide,
    (no_process_response (env_generator none) (request generator_stats_payload)
      generator_stats_payload generator_stats_value
      { cmd := "generator.stats", process := PROC_GENERATOR, proccmd := "stats",
        params := false }
      .generator rfl (by decide) rfl rfl (by decide) rfl rfl).1⟩

/-- C7: missing command.  For every non-empty payload that parses but whose
value has no `command` member that is a string (the member is missing, or is a
number, null, an array, an object or a boolean, or the value is not an object at
all), the one envelope the run builds and sends is `{"result": false, "error":
[-2, "No command"], "response": null}`; the run reads no row of the registry and
contacts no sibling. -/
theorem missing_command (env : Env) (apimsg : apimsg_t) (buf : String) (val : json_t)
    (hbuf : apimsg.buf = some buf) (hne : buf ≠ "")
    (hload : env.json_loads buf = .ok val)
    (hcmd : ∀ s, json_object_get val "command" ≠ some (.string s)) :
    packed (ckpool_api env apimsg) =
      [some (.object [("result", .boolean false),
                      ("error", .array [.integer (-2), .string "No command"]),
                      ("response", .null)])] ∧
    sent (ckpool_api env apimsg) =
      [(apimsg.sockd,
        env.json_dumps
          (some (.object [("result", .boolean false),
                          ("error", .array [.integer (-2), .string "No command"]),
                          ("response", .null)]))
          [.JSON_NO_UTF8, .JSON_PRESERVE_ORDER])] ∧
    scanned (ckpool_api env apimsg) = [] ∧
    proc_calls (ckpool_api env apimsg) = [] := by
  rw [ckpool_api_no_command env apimsg buf val hbuf hne hload hcmd]
  simp [packed_cons, packed_out_send, sent_cons, sent_out_send, scanned_cons,
    scanned_out_send, proc_calls_cons, proc_calls_out_send, error_envelope, dumps_flags]

/-- Witness of C7: a payload whose `command` member is the number 5. -/
theorem missing_command_witness :
    number_command_payload ≠ "" ∧
    (∀ s, json_object_get number_command_value "command" ≠ some (.string s)) ∧
    scanned (ckpool_api (sample_env (.ok number_command_value) (some "OK"))
      (request number_command_payload)) = [] :=
  ⟨by decide,
    fun s h => by simp [number_command_value, json_object_get, lookup_member] at h,
    (missing_command (sample_env (.ok number_command_value) (some "OK"))
      (request number_command_payload) number_command_payload number_command_value
      rfl (by decide) rfl
      (fun s h => by
        simp [number_command_value, json_object_get, lookup_member] at h)).2.2.1⟩

/-- C8, as the code has it: for a resolved entry whose params flag is true, a
request with no `params` member (`json_object_get` gives NULL) is answered with
`{"result": false, "error": [-4, "Missing params"], "response": null}` and no
sibling is contacted; a request that carries any `params` value, the JSON null
value included, passes the check: no Missing-params envelope is built and the
request is forwarded on the channel of the entry's process. -/
theorem mandatory_params_absent (env : Env) (apimsg : apimsg_t) (val : json_t)
    (ac : api_command) (hpar : ac.params = true) :
    (packed (dispatch env apimsg val none ac) =
        [some (.object [("result", .boolean false),
                        ("error", .array [.integer (-4), .string "Missing params"]),
                        ("response", .null)])] ∧
      sent (dispatch env apimsg val none ac) =
        [(apimsg.sockd,
          env.json_dumps
            (some (.object [("result", .boolean false),
                            ("error", .array [.integer (-4), .string "Missing params"]),
                            ("response", .null)]))
            [.JSON_NO_UTF8, .JSON_PRESERVE_ORDER])] ∧
      proc_calls (dispatch env apimsg val none ac) = []) ∧
    (∀ p : json_t,
      some (error_envelope (-4) "Missing params") ∉
        packed (dispatch env apimsg val (some p) ac) ∧
      ∀ pi, switch_process ac.process = some pi →
        proc_calls (dispatch env apimsg val (some p) ac) = [(pi, ac.proccmd)]) := by
  refine ⟨?_, fun p => ⟨?_, fun pi hpi => ?_⟩⟩
  · rw [dispatch_missing_params env apimsg val ac hpar]
    simp [packed_cons, packed_out_send, sent_cons, sent_out_send, proc_calls_cons,
      proc_calls_out_send, error_envelope, dumps_flags]
  · have hchk : ¬ (ac.params = true ∧ (some p : Option json_t).isNone) := by simp
    cases hpi : switch_process ac.process with
    | none =>
      rw [dispatch_no_channel env apimsg val (some p) ac hchk hpi]
      simp [packed_cons, packed_out_send, error_envelope]
    | some pi =>
      rw [dispatch_call env apimsg val (some p) ac pi hchk hpi]
      cases env.send_recv_proc pi ac.proccmd <;>
        simp [packed_cons, packed_out_send, error_envelope, reply_envelope]
  · have hchk : ¬ (ac.params = true ∧ (some p : Option json_t).isNone) := by simp
    rw [dispatch_call env apimsg val (some p) ac pi hchk hpi]
    cases env.send_recv_proc pi ac.proccmd <;>
      simp [proc_calls_cons, proc_calls_out_send]

/-- Witness of C8: the row `params_row` and a request without a `params`
member. -/
theorem mandatory_params_absent_witness :
    params_row.params = true ∧
    proc_calls (dispatch (sample_env (.ok generator_stats_value) (some "OK"))
      (request generator_stats_payload) generator_stats_value none params_row) = [] :=
  ⟨rfl,
    (mandatory_params_absent (sample_env (.ok generator_stats_value) (some "OK"))
      (request generator_stats_payload) generator_stats_value params_row rfl).1.2.2⟩

/-- C8 as stated fails: for the row `params_row`, whose params flag is true, the
request `{"command":"generator.params","params":null}` carries the JSON null
value as its `params`; `json_object_get` gives a non-NULL pointer for it, the
request is not rejected, the generator is contacted and its reply is the
envelope. -/
theorem mandatory_params_null_counterexample :
    params_row.params = true ∧
    json_object_get null_params_value "params" = some .null ∧
    proc_calls (dispatch (sample_env (.ok null_params_value) (some "OK"))
      (request null_params_payload) null_params_value
      (json_object_get null_params_value "params") params_row) = [(.generator, "params")] ∧
    packed (dispatch (sample_env (.ok null_params_value) (some "OK"))
      (request null_params_payload) null_params_value
      (json_object_get null_params_value "params") params_row) =
        [some (reply_envelope "OK")] ∧
    ¬ (packed (dispatch (sample_env (.ok null_params_value) (some "OK"))
        (request null_params_payload) null_params_value
        (json_object_get null_params_value "params") params_row) =
          [some (error_envelope (-4) "Missing params")] ∧
       proc_calls (dispatch (sample_env (.ok null_params_value) (some "OK"))
        (request null_params_payload) null_params_value
        (json_object_get null_params_value "params") params_row) = []) := by
  refine ⟨rfl, rfl, rfl, rfl, ?_⟩
  intro h
  have h2 : proc_calls (dispatch (sample_env (.ok null_params_value) (some "OK"))
      (request null_params_payload) null_params_value
      (json_object_get null_params_value "params") params_row) = [(.generator, "params")] :=
    rfl
  rw [h2] at h
  exact absurd h.2 (by simp)

/-- C9: empty request.  When the payload is absent (NULL) or has length zero,
the run is the warning followed by the cleanup: the JSON parser is not invoked,
no row of the registry is read and no sibling is contacted. -/
theorem empty_request (env : Env) (apimsg : apimsg_t)
    (h : apimsg.buf = none ∨ ∃ buf, apimsg.buf = some buf ∧ strlen buf = 0) :
    ckpool_api env apimsg =
      [ .LOGWARNING "Received NULL buffer in ckpool_api" [],
        .free (.procresponse none),
        .free (.response none),
        .close apimsg.sockd,
        .free (.buf apimsg.buf),
        .free .apimsg ] ∧
    parsed (ckpool_api env apimsg) = [] ∧
    scanned (ckpool_api env apimsg) = [] ∧
    proc_calls (ckpool_api env apimsg) = [] := by
  have key : ckpool_api env apimsg =
      [ .LOGWARNING "Received NULL buffer in ckpool_api" [],
        .free (.procresponse none),
        .free (.response none),
        .close apimsg.sockd,
        .free (.buf apimsg.buf),
        .free .apimsg ] := by
    rcases h with h | ⟨buf, h, hz⟩
    · simp [ckpool_api, h, out]
    · simp [ckpool_api, h, hz, out]
  rw [key]
  exact ⟨rfl, rfl, rfl, rfl⟩

/-- Witness of C9: the payload of length zero on socket 7. -/
theorem empty_request_witness :
    ((request "").buf = none ∨ ∃ buf, (request "").buf = some buf ∧ strlen buf = 0) ∧
    parsed (ckpool_api (env_generator (some "OK")) (request "")) = [] :=
  ⟨Or.inr ⟨"", rfl, rfl⟩,
    (empty_request (env_generator (some "OK")) (request "")
      (Or.inr ⟨"", rfl, rfl⟩)).2.1⟩

/-- C10 as stated fails: a request with no payload (EmptyRequest) is not
answered.  The run builds no envelope and sends nothing on the caller's socket;
it goes from the warning to the cleanup, which closes the socket. -/
theorem empty_request_unanswered_counterexample :
    packed (ckpool_api (env_generator (some "OK")) { buf := none, sockd := 7 }) = [] ∧
    sent (ckpool_api (env_generator (some "OK")) { buf := none, sockd := 7 }) = [] ∧
    Event.close 7 ∈ ckpool_api (env_generator (some "OK")) { buf := none, sockd := 7 } ∧
    ¬ ∃ (pre post : List Event) (e : json_t) (text : Option String),
        ckpool_api (env_generator (some "OK")) { buf := none, sockd := 7 } =
          pre ++ .JSON_CPACK (some e) :: .send_unix_msg 7 text :: post := by
  refine ⟨rfl, rfl, by simp [ckpool_api, out], ?_⟩
  rintro ⟨pre, post, e, text, h⟩
  have hp := congrArg packed h
  rw [packed_append, packed_cons] at hp
  have h0 : packed (ckpool_api (env_generator (some "OK")) { buf := none, sockd := 7 }) = [] :=
    rfl
  rw [h0] at hp
  simp at hp

/-- C10, as the code has it: every failure but the empty request is answered.
On a non-empty payload the run builds exactly one envelope, serialises it and
attempts to send the text on the caller's socket, exactly once and before the
socket is closed; the envelope is a failure envelope unless a sibling contacted
in the run gave a reply, in which case it is that reply's envelope.  The same
holds of the code after the scan for an arbitrary resolved entry, which is where
the Missing-params failure arises.  On an absent or empty payload no envelope is
built and nothing is sent. -/
theorem failures_answered (env : Env) (apimsg : apimsg_t) :
    (∀ buf, apimsg.buf = some buf → buf ≠ "" →
      ∃ (pre post : List Event) (e : json_t),
        ckpool_api env apimsg =
          pre ++ .JSON_CPACK (some e) ::
            .json_dumps (some e) [.JSON_NO_UTF8, .JSON_PRESERVE_ORDER] ::
            .send_unix_msg apimsg.sockd
              (env.json_dumps (some e) [.JSON_NO_UTF8, .JSON_PRESERVE_ORDER]) :: post ∧
        packed pre = [] ∧ sent pre = [] ∧ Event.close apimsg.sockd ∉ pre ∧
        packed post = [] ∧ sent post = [] ∧ Event.close apimsg.sockd ∈ post ∧
        ((∃ code msg, e = error_envelope code msg) ∨
         (∃ pi proccmd r, (pi, proccmd) ∈ proc_calls pre ∧
            env.send_recv_proc pi proccmd = some r ∧ e = reply_envelope r))) ∧
    (∀ (val : json_t) (params : Option json_t) (ac : api_command),
      ∃ (pre post : List Event) (e : json_t),
        dispatch env apimsg val params ac =
          pre ++ .JSON_CPACK (some e) ::
            .json_dumps (some e) [.JSON_NO_UTF8, .JSON_PRESERVE_ORDER] ::
            .send_unix_msg apimsg.sockd
              (env.json_dumps (some e) [.JSON_NO_UTF8, .JSON_PRESERVE_ORDER]) :: post ∧
        packed pre = [] ∧ sent pre = [] ∧ Event.close apimsg.sockd ∉ pre ∧
        packed post = [] ∧ sent post = [] ∧ Event.close apimsg.sockd ∈ post ∧
        ((∃ code msg, e = error_envelope code msg) ∨
         (∃ pi proccmd r, (pi, proccmd) ∈ proc_calls pre ∧
            env.send_recv_proc pi proccmd = some r ∧ e = reply_envelope r))) ∧
    ((apimsg.buf = none ∨ apimsg.buf = some "") →
      packed (ckpool_api env apimsg) = [] ∧ sent (ckpool_api env apimsg) = []) := by
  refine ⟨fun buf hbuf hne => ?_, fun val params ac => ?_, fun h => ?_⟩
  · obtain ⟨pre, e, val, p, hrun, hp, hs, hc, hkind⟩ :=
      ckpool_api_shape env apimsg buf hbuf hne
    obtain ⟨post, hout, hclose, hpp, hsp⟩ := out_send_shape env apimsg val p (some e)
    exact ⟨pre, post, e, by rw [hrun, hout]; rfl, hp, hs, hc, hpp, hsp, hclose, hkind⟩
  · obtain ⟨pre, e, p, hrun, hp, hs, hc, hkind⟩ := dispatch_shape env apimsg val params ac
    obtain ⟨post, hout, hclose, hpp, hsp⟩ := out_send_shape env apimsg (some val) p (some e)
    exact ⟨pre, post, e, by rw [hrun, hout]; rfl, hp, hs, hc, hpp, hsp, hclose, hkind⟩
  · rcases h with h | h
    · simp [ckpool_api, h, packed_cons, packed_out, sent_cons, sent_out]
    · have hz : strlen "" = 0 := rfl
      simp [ckpool_api, h, hz, packed_cons, packed_out, sent_cons, sent_out]

/-- Witness of C10: the request `{"command":"generator.stats"}` when the
generator gives no reply is answered. -/
theorem failures_answered_witness :
    (request generator_stats_payload).buf = some generator_stats_payload ∧
    generator_stats_payload ≠ "" ∧
    ∃ (pre post : List Event) (e : json_t),
      ckpool_api (env_generator none) (request generator_stats_payload) =
        pre ++ .JSON_CPACK (some e) ::
          .json_dumps (some e) [.JSON_NO_UTF8, .JSON_PRESERVE_ORDER] ::
          .send_unix_msg (request generator_stats_payload).sockd
            ((env_generator none).json_dumps (some e)
              [.JSON_NO_UTF8, .JSON_PRESERVE_ORDER]) :: post ∧
      packed pre = [] ∧ sent pre = [] ∧
      Event.close (request generator_stats_payload).sockd ∉ pre ∧
      packed post = [] ∧ sent post = [] ∧
      Event.close (request generator_stats_payload).sockd ∈ post ∧
      ((∃ code msg, e = error_envelope code msg) ∨
       (∃ pi proccmd r, (pi, proccmd) ∈ proc_calls pre ∧
          (env_generator none).send_recv_proc pi proccmd = some r ∧
          e = reply_envelope r)) :=
  ⟨rfl, by decide,
    (failures_answered (env_generator none) (request generator_stats_payload)).1
      generator_stats_payload rfl (by decide)⟩

/-- C11 as stated fails: when the generator answers the request
`{"command":"generator.stats"}` with the empty string, the reply is not NULL,
and the envelope built is the success envelope with `response` the array
`[""]`, not the No-process-response envelope. -/
theorem empty_reply_counterexample :
    (env_generator (some "")).send_recv_proc .generator "stats" = some "" ∧
    packed (ckpool_api (env_generator (some "")) (request generator_stats_payload)) =
      [some (.object [("result", .boolean false), ("error", .null),
                      ("response", .array [.string ""])])] ∧
    ¬ (packed (ckpool_api (env_generator (some "")) (request generator_stats_payload)) =
      [some (.object [("result", .boolean false),
                      ("error", .array [.integer (-4), .string "No process response"]),
                      ("response", .null)])]) := by
  have hrun : packed (ckpool_api (env_generator (some ""))
      (request generator_stats_payload)) = [some (reply_envelope "")] := by
    rw [ckpool_api_registered (env_generator (some "")) (request generator_stats_payload)
        generator_stats_payload generator_stats_value
        ⟨"generator.stats", PROC_GENERATOR, "stats", false⟩ rfl (by decide) rfl rfl
        (by decide) (by decide),
      dispatch_call (env_generator (some "")) (request generator_stats_payload)
        generator_stats_value _ ⟨"generator.stats", PROC_GENERATOR, "stats", false⟩
        .generator (by simp) rfl]
    simp [env_generator, sample_env, packed_cons, packed_append, packed_scan,
      packed_out_send]
  refine ⟨rfl, hrun, ?_⟩
  rw [hrun]
  simp [reply_envelope]

/-- C11, as the code has it: only a NULL reply counts as no reply.  For a
registered command (a row of `api_cmds` whose process has a channel) whose
sibling replies with the empty string, the one envelope the run builds and sends
is the success envelope `{"result": false, "error": null, "response": [""]}`;
the No-process-response envelope is not built. -/
theorem empty_reply_is_a_reply (env : Env) (apimsg : apimsg_t) (buf : String) (val : json_t)
    (ac : api_command) (pi : proc_instance)
    (hbuf : apimsg.buf = some buf) (hne : buf ≠ "")
    (hload : env.json_loads buf = .ok val)
    (hcmd : json_object_get val "command" = some (.string ac.cmd))
    (hrow : ac ∈ api_cmds) (hpi : switch_process ac.process = some pi)
    (hreply : env.send_recv_proc pi ac.proccmd = some "") :
    packed (ckpool_api env apimsg) =
      [some (.object [("result", .boolean false), ("error", .null),
                      ("response", .array [.string ""])])] ∧
    sent (ckpool_api env apimsg) =
      [(apimsg.sockd,
        env.json_dumps
          (some (.object [("result", .boolean false), ("error", .null),
                          ("response", .array [.string ""])]))
          [.JSON_NO_UTF8, .JSON_PRESERVE_ORDER])] ∧
    some (error_envelope (-4) "No process response") ∉ packed (ckpool_api env apimsg) := by
  have hproc := switch_process_sentinel ac.process pi hpi
  have hpar : ¬ (ac.params = true ∧ (json_object_get val "params").isNone) := by
    simp [api_cmds_params ac hrow]
  rw [ckpool_api_registered env apimsg buf val ac hbuf hne hload hcmd hrow hproc,
    dispatch_call env apimsg val _ ac pi hpar hpi, hreply]
  simp [packed_cons, packed_append, packed_scan, packed_out_send, sent_cons, sent_append,
    sent_scan, sent_out_send, reply_envelope, error_envelope, dumps_flags]

/-- Witness of C11: the request `{"command":"generator.stats"}` when the
generator replies with the empty string. -/
theorem empty_reply_is_a_reply_witness :
    generator_stats_payload ≠ "" ∧
    (env_generator (some "")).send_recv_proc .generator "stats" = some "" ∧
    some (error_envelope (-4) "No process response") ∉
      packed (ckpool_api (env_generator (some "")) (request generator_stats_payload)) :=
  ⟨by decide, rfl,
    (empty_reply_is_a_reply (env_generator (some "")) (request generator_stats_payload)
      generator_stats_payload generator_stats_value
      { cmd := "generator.stats", process := PROC_GENERATOR, proccmd := "stats",
        params := false }
      .generator rfl (by decide) rfl rfl (by decide) rfl rfl).2.2⟩

/-- C12 as stated fails: the payload of one blank is not rejected as empty.  It
is given to the JSON parser, and when the parser rejects it the envelope built
is the Invalid-json one. -/
theorem whitespace_payload_counterexample :
    blank_payload.toList.all Char.isWhitespace = true ∧
    parsed (ckpool_api
      (sample_env (.error { line := 1, text := "unexpected end of file" }) none)
      (request blank_payload)) = [blank_payload] ∧
    packed (ckpool_api
      (sample_env (.error { line := 1, text := "unexpected end of file" }) none)
      (request blank_payload)) = [some (error_envelope (-1) "Invalid json")] ∧
    ¬ (parsed (ckpool_api
      (sample_env (.error { line := 1, text := "unexpected end of file" }) none)
      (request blank_payload)) = []) := by
  have hrun := ckpool_api_invalid
    (sample_env (.error { line := 1, text := "unexpected end of file" }) none)
    (request blank_payload) blank_payload { line := 1, text := "unexpected end of file" }
    rfl (by decide) rfl
  rw [hrun]
  refine ⟨by decide, ?_, ?_, ?_⟩
  · simp [parsed_cons, parsed_out_send]
  · simp [packed_cons, packed_out_send]
  · simp [parsed_cons, parsed_out_send]

/-- C12, as the code has it: only a payload of length zero is rejected as
empty.  A non-empty payload that consists of whitespace only is given to the
JSON parser; when the parser rejects it, the one envelope built is
`{"result": false, "error": [-1, "Invalid json"], "response": null}` and no
sibling is contacted. -/
theorem whitespace_payload_parsed (env : Env) (apimsg : apimsg_t) (buf : String)
    (hbuf : apimsg.buf = some buf) (hne : buf ≠ "")
    (_hws : buf.toList.all Char.isWhitespace = true) :
    parsed (ckpool_api env apimsg) = [buf] ∧
    (∀ err_val, env.json_loads buf = .error err_val →
      packed (ckpool_api env apimsg) =
        [some (.object [("result", .boolean false),
                        ("error", .array [.integer (-1), .string "Invalid json"]),
                        ("response", .null)])] ∧
      proc_calls (ckpool_api env apimsg) = []) := by
  refine ⟨?_, fun err_val hload => ?_⟩
  · rcases ckpool_api_cases env apimsg with
      ⟨hb, _⟩ | ⟨b, e, hb, _, _, hrun⟩ | ⟨b, v, hb, _, _, _, hrun⟩ |
      ⟨b, v, c, hb, _, _, _, _, _, _, hrun⟩ | ⟨b, v, ac, pi, hb, _, _, _, _, _, _, hrun⟩ |
      ⟨b, v, ac, pi, r, hb, _, _, _, _, _, _, hrun⟩
    · rcases hb with hb | hb
      · rw [hbuf] at hb; cases hb
      · rw [hbuf] at hb; cases hb; exact absurd rfl hne
    all_goals
      rw [hbuf] at hb
      cases hb
      rw [hrun]
      simp [parsed_cons, parsed_append, parsed_scan, parsed_out_send]
  · rw [ckpool_api_invalid env apimsg buf err_val hbuf hne hload]
    simp [packed_cons, packed_out_send, proc_calls_cons, proc_calls_out_send,
      error_envelope]

/-- Witness of C12: the payload of one blank. -/
theorem whitespace_payload_parsed_witness :
    blank_payload ≠ "" ∧ blank_payload.toList.all Char.isWhitespace = true ∧
    parsed (ckpool_api
      (sample_env (.error { line := 1, text := "unexpected end of file" }) none)
      (request blank_payload)) = [blank_payload] :=
  ⟨by decide, by decide,
    (whitespace_payload_parsed
      (sample_env (.error { line := 1, text := "unexpected end of file" }) none)
      (request blank_payload) blank_payload rfl (by decide) (by decide)).1⟩

/-- C13: resource release on every path.  In every run, whatever the payload,
the parser, the sibling and the caller's channel do, the operations on sockets
end with the one `close` of the caller's socket, and every operation before it
is a send or a wait on that socket; the parsed value is released, once, whenever
parsing succeeded; and a reply received from a sibling is freed, once. -/
theorem resources_released (env : Env) (apimsg : apimsg_t) :
    (∃ ops, sock_ops (ckpool_api env apimsg) = ops ++ [(.close, apimsg.sockd)] ∧
      ∀ op ∈ ops, op.1 ≠ sock_op.close ∧ op.2 = apimsg.sockd) ∧
    (∀ buf val, apimsg.buf = some buf → buf ≠ "" → env.json_loads buf = .ok val →
      released (ckpool_api env apimsg) = [val]) ∧
    (∀ pi proccmd r, (pi, proccmd) ∈ proc_calls (ckpool_api env apimsg) →
      env.send_recv_proc pi proccmd = some r →
      freed_replies (ckpool_api env apimsg) = [some r]) := by
  rcases buf_cases apimsg with hb | ⟨buf, hbuf, hne⟩
  · rw [ckpool_api_empty env apimsg hb]
    refine ⟨⟨[], by simp [sock_ops_cons, sock_ops_out], by simp⟩, ?_, ?_⟩
    · intro b v hb' hne' _
      rcases hb with hb | hb
      · rw [hb] at hb'; cases hb'
      · rw [hb] at hb'; cases hb'; exact absurd rfl hne'
    · intro pi proccmd r hmem
      simp [proc_calls_cons, proc_calls_out] at hmem
  · obtain ⟨pre, e, p, hrun, hso, hrel, hfr, _, _, _, _, hcalls, _, _⟩ :=
      ckpool_api_normal env apimsg buf hbuf hne
    rw [hrun]
    refine ⟨?_, ?_, ?_⟩
    · simp only [sock_ops_append, sock_ops_cons, hso, List.nil_append, sock_ops_out_send]
      by_cases hs : env.send_unix_msg apimsg.sockd
          (env.json_dumps (some e) dumps_flags) = false
      · exact ⟨[(.send, apimsg.sockd)], by simp [hs], by simp⟩
      · exact ⟨[(.send, apimsg.sockd), (.wait, apimsg.sockd)], by simp [hs], by simp⟩
    · intro b v hb' _ hload
      rw [hbuf] at hb'
      cases hb'
      simp [released_append, released_cons, hrel, released_out_send, hload]
    · intro pi proccmd r hmem hr
      simp only [proc_calls_append, proc_calls_cons, proc_calls_out_send,
        List.append_nil, List.nil_append] at hmem
      rcases hcalls with hc | ⟨pi', c', hc, hp⟩
      · rw [hc] at hmem; simp at hmem
      · rw [hc] at hmem
        simp only [List.mem_singleton, Prod.mk.injEq] at hmem
        obtain ⟨h1, h2⟩ := hmem
        subst h1 h2
        rw [hr] at hp
        subst hp
        simp [freed_replies_append, freed_replies_cons, hfr, freed_replies_out_send]

/-- Witness of C13: the request `{"command":"generator.stats"}` answered `OK`
by the generator. -/
theorem resources_released_witness :
    (request generator_stats_payload).buf = some generator_stats_payload ∧
    generator_stats_payload ≠ "" ∧
    (env_generator (some "OK")).json_loads generator_stats_payload =
      .ok generator_stats_value ∧
    released (ckpool_api (env_generator (some "OK")) (request generator_stats_payload)) =
      [generator_stats_value] :=
  ⟨rfl, by decide, rfl,
    (resources_released (env_generator (some "OK")) (request generator_stats_payload)).2.1
      generator_stats_payload generator_stats_value rfl (by decide) rfl⟩

/-- C14: session closer.  In every run there is one wait for the peer to
close, with bound 5, for each message whose send succeeded, and none for a send
that failed.  On a non-empty payload the run is: a part that sends nothing and
waits for nothing, the envelope, its serialisation, the send, a middle part and
the cleanup `out`.  The middle part is the warning alone when the send failed,
the wait alone when the close was seen in time, and the wait with its warning
when the bound elapsed; the cleanup is the same in the three cases and closes
the caller's socket. -/
theorem session_closer (env : Env) (apimsg : apimsg_t) :
    waits (ckpool_api env apimsg) =
      (sent (ckpool_api env apimsg)).filterMap
        (fun m => if env.send_unix_msg m.1 m.2 = true then some (m.1, 5) else none) ∧
    (∀ buf, apimsg.buf = some buf → buf ≠ "" →
      ∃ (pre mid : List Event) (e : json_t) (val : Option json_t) (p response : Option String),
        response = env.json_dumps (some e) [.JSON_NO_UTF8, .JSON_PRESERVE_ORDER] ∧
        ckpool_api env apimsg =
          pre ++ .JSON_CPACK (some e) ::
            .json_dumps (some e) [.JSON_NO_UTF8, .JSON_PRESERVE_ORDER] ::
            .send_unix_msg apimsg.sockd response ::
            (mid ++ out apimsg val p response) ∧
        waits pre = [] ∧ sent pre = [] ∧
        (env.send_unix_msg apimsg.sockd response = false →
          mid = [.LOGWARNING "Failed to send API response: %s to sockd %d"
            [.s response, .d apimsg.sockd]]) ∧
        (env.send_unix_msg apimsg.sockd response = true →
          env.wait_close apimsg.sockd 5 = true → mid = [.wait_close apimsg.sockd 5]) ∧
        (env.send_unix_msg apimsg.sockd response = true →
          env.wait_close apimsg.sockd 5 = false →
          mid = [.wait_close apimsg.sockd 5,
            .LOGWARNING "ckpool_api did not detect close from sockd %d"
              [.d apimsg.sockd]]) ∧
        Event.close apimsg.sockd ∈ out apimsg val p response ∧
        waits (out apimsg val p response) = []) := by
  refine ⟨?_, fun buf hbuf hne => ?_⟩
  · rcases buf_cases apimsg with hb | ⟨buf, hbuf, hne⟩
    · rw [ckpool_api_empty env apimsg hb]
      simp [waits_cons, waits_out, sent_cons, sent_out]
    · obtain ⟨pre, e, p, hrun, _, _, _, hw, _, hs, _, _, _, _⟩ :=
        ckpool_api_normal env apimsg buf hbuf hne
      rw [hrun]
      simp only [waits_append, waits_cons, hw, waits_out_send, sent_append, sent_cons, hs,
        sent_out_send, List.nil_append, List.filterMap_cons, List.filterMap_nil]
      by_cases hsend : env.send_unix_msg apimsg.sockd
          (env.json_dumps (some e) dumps_flags) = false
      · simp [hsend]
      · simp [hsend]
  · obtain ⟨pre, e, p, hrun, _, _, _, hw, _, hs, _, _, _, _⟩ :=
      ckpool_api_normal env apimsg buf hbuf hne
    rw [out_send_eq] at hrun
    refine ⟨pre, _, e, _, p, _, rfl, hrun, hw, hs, ?_, ?_, ?_, ?_, waits_out _ _ _ _⟩
    · intro h
      simp only [dumps_flags] at h ⊢
      rw [if_pos h]
    · intro h hwc
      simp only [dumps_flags] at h ⊢
      simp [h, hwc]
    · intro h hwc
      simp only [dumps_flags] at h ⊢
      simp [h, hwc]
    · cases env.json_loads buf <;> simp [out]

/-- Witness of C14: the request `{"command":"generator.stats"}` answered `OK`,
sent and closed in time: one wait on socket 7 with bound 5. -/
theorem session_closer_witness :
    (request generator_stats_payload).buf = some generator_stats_payload ∧
    generator_stats_payload ≠ "" ∧
    waits (ckpool_api (env_generator (some "OK")) (request generator_stats_payload)) =
      (sent (ckpool_api (env_generator (some "OK"))
        (request generator_stats_payload))).filterMap
        (fun m => if (env_generator (some "OK")).send_unix_msg m.1 m.2 = true
          then some (m.1, 5) else none) ∧
    waits (ckpool_api (env_generator (some "OK")) (request generator_stats_payload)) =
      [(7, 5)] :=
  ⟨rfl, by decide,
    (session_closer (env_generator (some "OK")) (request generator_stats_payload)).1, rfl⟩

/-- C15: envelope shape invariant.  Every envelope a run builds is an object
with exactly the members `result`, `error`, `response`, in that order, and
`result` false; `error` is null or a two-element array of a code among -1, -2,
-3, -4 and a message; `response` is null or a one-element array that holds the
reply a sibling contacted in the run gave; and `error` is null exactly when
`response` is not. -/
theorem envelope_shape (env : Env) (apimsg : apimsg_t) :
    ∀ rv ∈ packed (ckpool_api env apimsg), ∃ err resp,
      rv = some (.object [("result", .boolean false), ("error", err), ("response", resp)]) ∧
      (err = .null ∨ ∃ code msg, err = .array [.integer code, .string msg] ∧
        (code = -1 ∨ code = -2 ∨ code = -3 ∨ code = -4)) ∧
      (resp = .null ∨ ∃ r, resp = .array [.string r] ∧
        ∃ pi proccmd, (pi, proccmd) ∈ proc_calls (ckpool_api env apimsg) ∧
          env.send_recv_proc pi proccmd = some r) ∧
      (err = .null ↔ resp ≠ .null) := by
  intro rv hrv
  rcases buf_cases apimsg with hb | ⟨buf, hbuf, hne⟩
  · rw [ckpool_api_empty env apimsg hb] at hrv
    simp [packed_cons, packed_out] at hrv
  · obtain ⟨pre, e, p, hrun, _, _, _, _, hp, _, _, hcalls, hnone, hsome⟩ :=
      ckpool_api_normal env apimsg buf hbuf hne
    rw [hrun] at hrv ⊢
    simp only [packed_append, packed_cons, hp, packed_out_send, List.nil_append,
      List.append_nil, List.mem_singleton] at hrv
    subst hrv
    cases p with
    | none =>
      obtain ⟨code, msg, he, hcode⟩ := hnone rfl
      subst he
      exact ⟨.array [.integer code, .string msg], .null, rfl,
        Or.inr ⟨code, msg, rfl, hcode⟩, Or.inl rfl, by simp⟩
    | some r =>
      obtain ⟨he, hne'⟩ := hsome r rfl
      subst he
      refine ⟨.null, .array [.string r], rfl, Or.inl rfl, Or.inr ⟨r, rfl, ?_⟩, by simp⟩
      rcases hcalls with hc | ⟨pi, c, hc, hr⟩
      · exact absurd hc hne'
      · exact ⟨pi, c, by simp [proc_calls_append, hc], hr⟩

/-- Witness of C15: the envelope of the request `{"command":"doesnotexist"}`. -/
theorem envelope_shape_witness :
    some (error_envelope (-3) "Unknown command") ∈
      packed (ckpool_api (sample_env (.ok unknown_value) none) (request unknown_payload)) ∧
    ∃ err resp,
      some (error_envelope (-3) "Unknown command") =
        some (.object [("result", .boolean false), ("error", err), ("response", resp)]) ∧
      (err = .null ∨ ∃ code msg, err = .array [.integer code, .string msg] ∧
        (code = -1 ∨ code = -2 ∨ code = -3 ∨ code = -4)) ∧
      (resp = .null ∨ ∃ r, resp = .array [.string r] ∧
        ∃ pi proccmd,
          (pi, proccmd) ∈ proc_calls
            (ckpool_api (sample_env (.ok unknown_value) none) (request unknown_payload)) ∧
          (sample_env (.ok unknown_value) none).send_recv_proc pi proccmd = some r) ∧
      (err = .null ↔ resp ≠ .null) :=
  ⟨List.mem_singleton.2 rfl,
    envelope_shape (sample_env (.ok unknown_value) none) (request unknown_payload)
      (some (error_envelope (-3) "Unknown command")) (List.mem_singleton.2 rfl)⟩

/-- C16: idempotence of handling.  Take two calls of `ckpool_api` in sequence,
the second entered in the state the first leaves, on the same payload, with a
parser that answers it the same and siblings that give the same replies both
times; the caller's sockets and channel may differ.  Started from the initial
registry, the two calls build identical envelopes: for a non-empty payload
exactly one envelope each, the same one, and for a registered command answered
`r` the reply envelope of `r` both times.  The registry after the two calls, and
after any single call entered in any state, is the registry before. -/
theorem handling_idempotent (env1 env2 : Env) (msg1 msg2 : apimsg_t)
    (hbuf : msg1.buf = msg2.buf)
    (hparse : ∀ buf, env1.json_loads buf = env2.json_loads buf)
    (hreply : ∀ pi proccmd, env1.send_recv_proc pi proccmd = env2.send_recv_proc pi proccmd) :
    packed (ckpool_api_twice globals_init env1 msg1 env2 msg2).1 =
      packed (ckpool_api_twice globals_init env1 msg1 env2 msg2).2.1 ∧
    (∀ buf, msg1.buf = some buf → buf ≠ "" →
      ∃ e, packed (ckpool_api_twice globals_init env1 msg1 env2 msg2).1 = [some e] ∧
        packed (ckpool_api_twice globals_init env1 msg1 env2 msg2).2.1 = [some e]) ∧
    (∀ buf val ac pi r, msg1.buf = some buf → buf ≠ "" → env1.json_loads buf = .ok val →
      json_object_get val "command" = some (.string ac.cmd) → ac ∈ api_cmds →
      switch_process ac.process = some pi → env1.send_recv_proc pi ac.proccmd = some r →
      packed (ckpool_api_twice globals_init env1 msg1 env2 msg2).1 =
        [some (.object [("result", .boolean false), ("error", .null),
                        ("response", .array [.string r])])] ∧
      packed (ckpool_api_twice globals_init env1 msg1 env2 msg2).2.1 =
        [some (.object [("result", .boolean false), ("error", .null),
                        ("response", .array [.string r])])]) ∧
    (ckpool_api_twice globals_init env1 msg1 env2 msg2).2.2 = globals_init ∧
    (ckpool_api_twice globals_init env1 msg1 env2 msg2).2.2.api_cmds = api_cmds ∧
    (∀ g : globals, (ckpool_api_state g env1 msg1).2 = g) := by
  have hstate : (ckpool_api_state globals_init env1 msg1).2 = globals_init :=
    ckpool_api_state_frame globals_init env1 msg1
  have h1 : (ckpool_api_twice globals_init env1 msg1 env2 msg2).1 = ckpool_api env1 msg1 :=
    ckpool_api_state_init env1 msg1
  have h2 : (ckpool_api_twice globals_init env1 msg1 env2 msg2).2.1 =
      ckpool_api env2 msg2 := by
    show (ckpool_api_state (ckpool_api_state globals_init env1 msg1).2 env2 msg2).1 = _
    rw [hstate]
    exact ckpool_api_state_init env2 msg2
  have h3 : (ckpool_api_twice globals_init env1 msg1 env2 msg2).2.2 = globals_init := by
    show (ckpool_api_state (ckpool_api_state globals_init env1 msg1).2 env2 msg2).2 = _
    rw [hstate]
    exact ckpool_api_state_frame globals_init env2 msg2
  have hsame := (ckpool_api_determined env1 env2 msg1 msg2 hbuf hparse hreply).1
  rw [h1, h2, h3]
  refine ⟨hsame, ?_, ?_, rfl, rfl, fun g => ckpool_api_state_frame g env1 msg1⟩
  · intro buf hb hne
    obtain ⟨pre, e, p, hrun, _, _, _, _, hp, _, _, _, _, _⟩ :=
      ckpool_api_normal env1 msg1 buf hb hne
    have hpk : packed (ckpool_api env1 msg1) = [some e] := by
      rw [hrun]
      simp [packed_append, packed_cons, hp, packed_out_send]
    exact ⟨e, hpk, by rw [← hsame]; exact hpk⟩
  · intro buf val ac pi r hb hne hload hcmd hrow hpi hr
    have hproc := switch_process_sentinel ac.process pi hpi
    have hpar : ¬ (ac.params = true ∧ (json_object_get val "params").isNone) := by
      simp [api_cmds_params ac hrow]
    have hpk : packed (ckpool_api env1 msg1) = [some (reply_envelope r)] := by
      rw [ckpool_api_registered env1 msg1 buf val ac hb hne hload hcmd hrow hproc,
        dispatch_call env1 msg1 val _ ac pi hpar hpi, hr]
      simp [packed_cons, packed_append, packed_scan, packed_out_send]
    exact ⟨hpk, by rw [← hsame]; exact hpk⟩

/-- Witness of C16: the request `{"command":"generator.stats"}` answered `OK`,
first on socket 7 with a caller that takes the message, then on socket 9 with a
caller whose channel fails. -/
theorem handling_idempotent_witness :
    (request generator_stats_payload).buf =
      (apimsg_t.mk (some generator_stats_payload) 9).buf ∧
    generator_stats_payload ≠ "" ∧
    packed (ckpool_api_twice globals_init (env_generator (some "OK"))
      (request generator_stats_payload)
      { env_generator (some "OK") with send_unix_msg := fun _ _ => false }
      (apimsg_t.mk (some generator_stats_payload) 9)).2.1 =
      [some (.object [("result", .boolean false), ("error", .null),
                      ("response", .array [.string "OK"])])] :=
  ⟨rfl, by decide,
    ((handling_idempotent (env_generator (some "OK"))
      { env_generator (some "OK") with send_unix_msg := fun _ _ => false }
      (request generator_stats_payload) (apimsg_t.mk (some generator_stats_payload) 9)
      rfl (fun _ => rfl) (fun _ _ => rfl)).2.2.1
      generator_stats_payload generator_stats_value
      { cmd := "generator.stats", process := PROC_GENERATOR, proccmd := "stats",
        params := false }
      .generator "OK" rfl (by decide) rfl rfl (by decide) rfl rfl).2⟩

/-- C17: no retry.  Every run makes at most one send-and-receive with a
sibling.  It makes one only when the payload is non-empty, parses, carries a
string `command` that the scan resolves to a row of the registry, and passes the
params check; the call is then on the channel of that row's process with that
row's sub-command.  When the call gives no reply it remains the only call of
the run. -/
theorem no_retry (env : Env) (apimsg : apimsg_t) :
    (proc_calls (ckpool_api env apimsg)).length ≤ 1 ∧
    (∀ call ∈ proc_calls (ckpool_api env apimsg),
      ∃ buf val ac i, apimsg.buf = some buf ∧ buf ≠ "" ∧ env.json_loads buf = .ok val ∧
        json_object_get val "command" = some (.string ac.cmd) ∧
        (scan ac.cmd api_cmds 0).2 = .found i ac ∧ api_cmds[i]? = some ac ∧
        ¬ (ac.params = true ∧ (json_object_get val "params").isNone = true) ∧
        switch_process ac.process = some call.1 ∧ call.2 = ac.proccmd) ∧
    (∀ pi proccmd, (pi, proccmd) ∈ proc_calls (ckpool_api env apimsg) →
      env.send_recv_proc pi proccmd = none →
      proc_calls (ckpool_api env apimsg) = [(pi, proccmd)]) := by
  rcases ckpool_api_cases env apimsg with
    ⟨hb, hrun⟩ | ⟨b, err, hb, hne, hload, hrun⟩ | ⟨b, v, hb, hne, hload, hcmd, hrun⟩ |
    ⟨b, v, c, hb, hne, hload, hcmd, h0, h1, h2, hrun⟩ |
    ⟨b, v, ac, pi, hb, hne, hload, hcmd, hrow, hpi, hr, hrun⟩ |
    ⟨b, v, ac, pi, r, hb, hne, hload, hcmd, hrow, hpi, hr, hrun⟩
  · have hc : proc_calls (ckpool_api env apimsg) = [] := by
      rw [hrun]; simp [proc_calls_cons, proc_calls_out]
    rw [hc]; simp
  · have hc : proc_calls (ckpool_api env apimsg) = [] := by
      rw [hrun]; simp [proc_calls_cons, proc_calls_out_send]
    rw [hc]; simp
  · have hc : proc_calls (ckpool_api env apimsg) = [] := by
      rw [hrun]; simp [proc_calls_cons, proc_calls_out_send]
    rw [hc]; simp
  · have hc : proc_calls (ckpool_api env apimsg) = [] := by
      rw [hrun]
      simp [proc_calls_cons, proc_calls_append, proc_calls_scan, proc_calls_out_send]
    rw [hc]; simp
  · have hc : proc_calls (ckpool_api env apimsg) = [(pi, ac.proccmd)] := by
      rw [hrun]
      simp [proc_calls_cons, proc_calls_append, proc_calls_scan, proc_calls_out_send]
    have hproc := switch_process_sentinel ac.process pi hpi
    obtain ⟨i, hfound, hidx⟩ := scan_finds_row ac hrow hproc
    rw [hc]
    refine ⟨by simp, ?_, ?_⟩
    · intro call hcall
      rw [List.mem_singleton] at hcall
      subst hcall
      exact ⟨b, v, ac, i, hb, hne, hload, hcmd, hfound, hidx,
        by simp [api_cmds_params ac hrow], hpi, rfl⟩
    · intro pi' c' hmem _
      rw [List.mem_singleton] at hmem
      rw [hmem]
  · have hc : proc_calls (ckpool_api env apimsg) = [(pi, ac.proccmd)] := by
      rw [hrun]
      simp [proc_calls_cons, proc_calls_append, proc_calls_scan, proc_calls_out_send]
    have hproc := switch_process_sentinel ac.process pi hpi
    obtain ⟨i, hfound, hidx⟩ := scan_finds_row ac hrow hproc
    rw [hc]
    refine ⟨by simp, ?_, ?_⟩
    · intro call hcall
      rw [List.mem_singleton] at hcall
      subst hcall
      exact ⟨b, v, ac, i, hb, hne, hload, hcmd, hfound, hidx,
        by simp [api_cmds_params ac hrow], hpi, rfl⟩
    · intro pi' c' hmem _
      rw [List.mem_singleton] at hmem
      rw [hmem]

/-- Witness of C17: the request `{"command":"generator.stats"}` when the
generator gives no reply: the one call stays the only one. -/
theorem no_retry_witness :
    ((proc_instance.generator, "stats") ∈
      proc_calls (ckpool_api (env_generator none) (request generator_stats_payload))) ∧
    (env_generator none).send_recv_proc .generator "stats" = none ∧
    proc_calls (ckpool_api (env_generator none) (request generator_stats_payload)) =
      [(.generator, "stats")] :=
  ⟨List.mem_singleton.2 rfl, rfl,
    (no_retry (env_generator none) (request generator_stats_payload)).2.2
      .generator "stats" (List.mem_singleton.2 rfl) rfl⟩

/-- C18: the sentinel never matches and the scan stays in bounds.  For every
command string the scan over `api_cmds` ends, with a row selected or with none,
and never with a read past the table; it reads no index beyond 3, compares the
candidate with rows 0 to 2 only, and a row it selects is one of those, with a
process other than -1.  The empty string, the sentinel's name, selects nothing,
so the request `{"command":""}` is answered with the Unknown-command envelope
and no sibling is contacted. -/
theorem sentinel_never_matches (cmd : String) :
    ((∃ i ac, (scan cmd api_cmds 0).2 = .found i ac) ∨
      (scan cmd api_cmds 0).2 = .not_found) ∧
    (∀ i ∈ scanned (scan cmd api_cmds 0).1, i ≤ 3) ∧
    (∀ i ∈ compared (scan cmd api_cmds 0).1, i < 3) ∧
    (∀ i ac, (scan cmd api_cmds 0).2 = .found i ac →
      i < 3 ∧ api_cmds[i]? = some ac ∧ ac.process ≠ -1) ∧
    (scan "" api_cmds 0).2 = .not_found ∧
    (∀ (env : Env) (apimsg : apimsg_t) (buf : String) (val : json_t),
      apimsg.buf = some buf → buf ≠ "" → env.json_loads buf = .ok val →
      json_object_get val "command" = some (.string "") →
      packed (ckpool_api env apimsg) =
        [some (.object [("result", .boolean false),
                        ("error", .array [.integer (-3), .string "Unknown command"]),
                        ("response", .null)])] ∧
      proc_calls (ckpool_api env apimsg) = []) := by
  refine ⟨?_, ?_, ?_, ?_, rfl, ?_⟩
  · rw [scan_api_cmds_eq]
    split_ifs
    · exact Or.inl ⟨_, _, rfl⟩
    · exact Or.inl ⟨_, _, rfl⟩
    · exact Or.inl ⟨_, _, rfl⟩
    · exact Or.inr rfl
  · rw [scan_api_cmds_eq]
    split_ifs <;> simp [scanned]
  · rw [scan_api_cmds_eq]
    split_ifs <;> simp [compared]
  · intro i ac h
    rw [scan_api_cmds_eq] at h
    split_ifs at h
    · cases h; exact ⟨by decide, rfl, by decide⟩
    · cases h; exact ⟨by decide, rfl, by decide⟩
    · cases h; exact ⟨by decide, rfl, by decide⟩
  · intro env apimsg buf val hbuf hne hload hcmd
    rw [ckpool_api_command env apimsg buf val "" hbuf hne hload hcmd, scan_api_cmds_eq]
    simp [packed_cons, packed_out_send, proc_calls_cons, proc_calls_out_send,
      error_envelope]

/-- Witness of C18: the request `{"command":""}`. -/
theorem sentinel_never_matches_witness :
    empty_command_payload ≠ "" ∧
    json_object_get empty_command_value "command" = some (.string "") ∧
    proc_calls (ckpool_api (sample_env (.ok empty_command_value) (some "OK"))
      (request empty_command_payload)) = [] :=
  ⟨by decide, rfl,
    ((sentinel_never_matches "").2.2.2.2.2
      (sample_env (.ok empty_command_value) (some "OK")) (request empty_command_payload)
      empty_command_payload empty_command_value rfl (by decide) rfl rfl).2⟩

/-- C19: the outcome is decided by the first failing stage.  On a non-empty
payload the run builds one envelope and sends it once.  Its error code is -1
exactly when parsing fails; -2 exactly when parsing succeeds and the value has
no string `command`; -3 exactly when the `command` is a string that is not a
registered name; and a sibling is consulted, once, exactly when the `command`
is a registered name.  So an unregistered command yields -3 whatever its
`params`, never -4. -/
theorem first_failing_stage (env : Env) (apimsg : apimsg_t) (buf : String)
    (hbuf : apimsg.buf = some buf) (hne : buf ≠ "") :
    ∃ e, packed (ckpool_api env apimsg) = [some e] ∧
      sent (ckpool_api env apimsg) =
        [(apimsg.sockd, env.json_dumps (some e) [.JSON_NO_UTF8, .JSON_PRESERVE_ORDER])] ∧
      (error_code e = some (-1) ↔ ∃ err_val, env.json_loads buf = .error err_val) ∧
      (error_code e = some (-2) ↔
        ∃ val, env.json_loads buf = .ok val ∧
          ∀ s, json_object_get val "command" ≠ some (.string s)) ∧
      (error_code e = some (-3) ↔
        ∃ val cmd, env.json_loads buf = .ok val ∧
          json_object_get val "command" = some (.string cmd) ∧
          cmd ≠ "connector.stats" ∧ cmd ≠ "stratifier.stats" ∧ cmd ≠ "generator.stats") ∧
      ((proc_calls (ckpool_api env apimsg)).length = 1 ↔
        ∃ val cmd, env.json_loads buf = .ok val ∧
          json_object_get val "command" = some (.string cmd) ∧
          (cmd = "connector.stats" ∨ cmd = "stratifier.stats" ∨ cmd = "generator.stats")) := by
  rcases ckpool_api_cases env apimsg with
    ⟨hb, _⟩ | ⟨b, err, hb, _, hload, hrun⟩ | ⟨b, v, hb, _, hload, hcmd, hrun⟩ |
    ⟨b, v, c, hb, _, hload, hcmd, h0, h1, h2, hrun⟩ |
    ⟨b, v, ac, pi, hb, _, hload, hcmd, hrow, hpi, hr, hrun⟩ |
    ⟨b, v, ac, pi, r, hb, _, hload, hcmd, hrow, hpi, hr, hrun⟩
  · rcases hb with hb | hb
    · rw [hbuf] at hb; cases hb
    · rw [hbuf] at hb; cases hb; exact absurd rfl hne
  · rw [hbuf] at hb; cases hb
    refine ⟨error_envelope (-1) "Invalid json", ?_, ?_, ?_, ?_, ?_, ?_⟩
    · rw [hrun]; simp [packed_cons, packed_out_send]
    · rw [hrun]; simp [sent_cons, sent_out_send, dumps_flags]
    · simp [error_code_error_envelope, hload]
    · simp [error_code_error_envelope, hload]
    · simp [error_code_error_envelope, hload]
    · rw [hrun]; simp [proc_calls_cons, proc_calls_out_send, hload]
  · rw [hbuf] at hb; cases hb
    refine ⟨error_envelope (-2) "No command", ?_, ?_, ?_, ?_, ?_, ?_⟩
    · rw [hrun]; simp [packed_cons, packed_out_send]
    · rw [hrun]; simp [sent_cons, sent_out_send, dumps_flags]
    · simp [error_code_error_envelope, hload]
    · simp [error_code_error_envelope, hload, hcmd]
    · simp [error_code_error_envelope, hload, hcmd]
    · rw [hrun]; simp [proc_calls_cons, proc_calls_out_send, hload, hcmd]
  · rw [hbuf] at hb; cases hb
    refine ⟨error_envelope (-3) "Unknown command", ?_, ?_, ?_, ?_, ?_, ?_⟩
    · rw [hrun]; simp [packed_cons, packed_append, packed_scan, packed_out_send]
    · rw [hrun]; simp [sent_cons, sent_append, sent_scan, sent_out_send, dumps_flags]
    · simp [error_code_error_envelope, hload]
    · simp [error_code_error_envelope, hload, hcmd]
    · simp [error_code_error_envelope, hload, hcmd, h0, h1, h2]
    · rw [hrun]
      simp [proc_calls_cons, proc_calls_append, proc_calls_scan, proc_calls_out_send, hload,
        hcmd, h0, h1, h2]
  · rw [hbuf] at hb; cases hb
    have hreg := registered_name ac hrow (switch_process_sentinel ac.process pi hpi)
    refine ⟨error_envelope (-4) "No process response", ?_, ?_, ?_, ?_, ?_, ?_⟩
    · rw [hrun]; simp [packed_cons, packed_append, packed_scan, packed_out_send]
    · rw [hrun]; simp [sent_cons, sent_append, sent_scan, sent_out_send, dumps_flags]
    · simp [error_code_error_envelope, hload]
    · simp [error_code_error_envelope, hload, hcmd]
    · rw [error_code_error_envelope]
      constructor
      · intro h; simp at h
      · rintro ⟨val, cmd, hl, hc, n0, n1, n2⟩
        rw [hload] at hl
        cases hl
        rw [hcmd] at hc
        cases hc
        rcases hreg with h | h | h
        · exact absurd h n0
        · exact absurd h n1
        · exact absurd h n2
    · rw [hrun]
      simp only [proc_calls_cons, proc_calls_append, proc_calls_scan, proc_calls_out_send,
        List.nil_append, List.append_nil, List.length_singleton, true_iff]
      exact ⟨v, ac.cmd, hload, hcmd, hreg⟩
  · rw [hbuf] at hb; cases hb
    have hreg := registered_name ac hrow (switch_process_sentinel ac.process pi hpi)
    refine ⟨reply_envelope r, ?_, ?_, ?_, ?_, ?_, ?_⟩
    · rw [hrun]; simp [packed_cons, packed_append, packed_scan, packed_out_send]
    · rw [hrun]; simp [sent_cons, sent_append, sent_scan, sent_out_send, dumps_flags]
    · simp [error_code_reply_envelope, hload]
    · simp [error_code_reply_envelope, hload, hcmd]
    · rw [error_code_reply_envelope]
      constructor
      · intro h; simp at h
      · rintro ⟨val, cmd, hl, hc, n0, n1, n2⟩
        rw [hload] at hl
        cases hl
        rw [hcmd] at hc
        cases hc
        rcases hreg with h | h | h
        · exact absurd h n0
        · exact absurd h n1
        · exact absurd h n2
    · rw [hrun]
      simp only [proc_calls_cons, proc_calls_append, proc_calls_scan, proc_calls_out_send,
        List.nil_append, List.append_nil, List.length_singleton, true_iff]
      exact ⟨v, ac.cmd, hload, hcmd, hreg⟩

/-- Witness of C19: the request `{"command":"doesnotexist"}`, which has no
`params` member, gets the code -3. -/
theorem first_failing_stage_witness :
    (request unknown_payload).buf = some unknown_payload ∧ unknown_payload ≠ "" ∧
    json_object_get unknown_value "params" = none ∧
    ∃ e, packed (ckpool_api (sample_env (.ok unknown_value) none)
        (request unknown_payload)) = [some e] ∧
      error_code e = some (-3) :=
  ⟨rfl, by decide, rfl,
    (first_failing_stage (sample_env (.ok unknown_value) none) (request unknown_payload)
      unknown_payload rfl (by decide)).elim
      (fun e h => ⟨e, h.1,
        h.2.2.2.2.1.2 ⟨unknown_value, "doesnotexist", rfl, rfl, by decide, by decide,
          by decide⟩⟩)⟩

/-- C20: with the fixed registry the Missing-params envelope is unreachable.
No row of `api_cmds` has the params flag set; no run builds the Missing-params
envelope; an envelope with error code -4 is the No-process-response envelope;
and one is built exactly when the payload carries a registered command, the
request was forwarded on the channel of its row, and the sibling gave no
reply. -/
theorem missing_params_unreachable (env : Env) (apimsg : apimsg_t) :
    (∀ ac ∈ api_cmds, ac.params = false) ∧
    some (error_envelope (-4) "Missing params") ∉ packed (ckpool_api env apimsg) ∧
    (∀ e, some e ∈ packed (ckpool_api env apimsg) → error_code e = some (-4) →
      e = .object [("result", .boolean false),
                   ("error", .array [.integer (-4), .string "No process response"]),
                   ("response", .null)]) ∧
    ((∃ e, some e ∈ packed (ckpool_api env apimsg) ∧ error_code e = some (-4)) ↔
      ∃ buf val ac pi, apimsg.buf = some buf ∧ buf ≠ "" ∧ env.json_loads buf = .ok val ∧
        json_object_get val "command" = some (.string ac.cmd) ∧ ac ∈ api_cmds ∧
        switch_process ac.process = some pi ∧
        (pi, ac.proccmd) ∈ proc_calls (ckpool_api env apimsg) ∧
        env.send_recv_proc pi ac.proccmd = none) := by
  refine ⟨api_cmds_params, ?_⟩
  rcases ckpool_api_cases env apimsg with
    ⟨hb, hrun⟩ | ⟨b, err, hb, hne, hload, hrun⟩ | ⟨b, v, hb, hne, hload, hcmd, hrun⟩ |
    ⟨b, v, c, hb, hne, hload, hcmd, h0, h1, h2, hrun⟩ |
    ⟨b, v, ac, pi, hb, hne, hload, hcmd, hrow, hpi, hr, hrun⟩ |
    ⟨b, v, ac, pi, r, hb, hne, hload, hcmd, hrow, hpi, hr, hrun⟩
  · have hp : packed (ckpool_api env apimsg) = [] := by
      rw [hrun]; simp [packed_cons, packed_out]
    rw [hp]
    refine ⟨by simp, by simp, ?_⟩
    constructor
    · rintro ⟨e, he, _⟩; simp at he
    · rintro ⟨buf, val, ac, pi, hbuf, hne, _⟩
      rcases hb with hb | hb
      · rw [hbuf] at hb; cases hb
      · rw [hbuf] at hb; cases hb; exact absurd rfl hne
  · have hp : packed (ckpool_api env apimsg) = [some (error_envelope (-1) "Invalid json")] := by
      rw [hrun]; simp [packed_cons, packed_out_send]
    have hc : proc_calls (ckpool_api env apimsg) = [] := by
      rw [hrun]; simp [proc_calls_cons, proc_calls_out_send]
    rw [hp, hc]
    refine ⟨by simp [error_envelope], ?_, ?_⟩
    · intro e he hcode
      simp only [List.mem_singleton, Option.some.injEq] at he
      subst he
      simp [error_code_error_envelope] at hcode
    · constructor
      · rintro ⟨e, he, hcode⟩
        simp only [List.mem_singleton, Option.some.injEq] at he
        subst he
        simp [error_code_error_envelope] at hcode
      · rintro ⟨_, _, _, _, _, _, _, _, _, _, hmem, _⟩
        simp at hmem
  · have hp : packed (ckpool_api env apimsg) = [some (error_envelope (-2) "No command")] := by
      rw [hrun]; simp [packed_cons, packed_out_send]
    have hc : proc_calls (ckpool_api env apimsg) = [] := by
      rw [hrun]; simp [proc_calls_cons, proc_calls_out_send]
    rw [hp, hc]
    refine ⟨by simp [error_envelope], ?_, ?_⟩
    · intro e he hcode
      simp only [List.mem_singleton, Option.some.injEq] at he
      subst he
      simp [error_code_error_envelope] at hcode
    · constructor
      · rintro ⟨e, he, hcode⟩
        simp only [List.mem_singleton, Option.some.injEq] at he
        subst he
        simp [error_code_error_envelope] at hcode
      · rintro ⟨_, _, _, _, _, _, _, _, _, _, hmem, _⟩
        simp at hmem
  · have hp : packed (ckpool_api env apimsg) =
        [some (error_envelope (-3) "Unknown command")] := by
      rw [hrun]; simp [packed_cons, packed_append, packed_scan, packed_out_send]
    have hc : proc_calls (ckpool_api env apimsg) = [] := by
      rw [hrun]
      simp [proc_calls_cons, proc_calls_append, proc_calls_scan, proc_calls_out_send]
    rw [hp, hc]
    refine ⟨by simp [error_envelope], ?_, ?_⟩
    · intro e he hcode
      simp only [List.mem_singleton, Option.some.injEq] at he
      subst he
      simp [error_code_error_envelope] at hcode
    · constructor
      · rintro ⟨e, he, hcode⟩
        simp only [List.mem_singleton, Option.some.injEq] at he
        subst he
        simp [error_code_error_envelope] at hcode
      · rintro ⟨_, _, _, _, _, _, _, _, _, _, hmem, _⟩
        simp at hmem
  · have hp : packed (ckpool_api env apimsg) =
        [some (error_envelope (-4) "No process response")] := by
      rw [hrun]; simp [packed_cons, packed_append, packed_scan, packed_out_send]
    have hc : proc_calls (ckpool_api env apimsg) = [(pi, ac.proccmd)] := by
      rw [hrun]
      simp [proc_calls_cons, proc_calls_append, proc_calls_scan, proc_calls_out_send]
    rw [hp, hc]
    refine ⟨by simp [error_envelope], ?_, ?_⟩
    · intro e he _
      simp only [List.mem_singleton, Option.some.injEq] at he
      subst he
      rfl
    · constructor
      · intro _
        exact ⟨b, v, ac, pi, hb, hne, hload, hcmd, hrow, hpi, List.mem_singleton.2 rfl, hr⟩
      · intro _
        exact ⟨_, List.mem_singleton.2 rfl, error_code_error_envelope _ _⟩
  · have hp : packed (ckpool_api env apimsg) = [some (reply_envelope r)] := by
      rw [hrun]; simp [packed_cons, packed_append, packed_scan, packed_out_send]
    have hc : proc_calls (ckpool_api env apimsg) = [(pi, ac.proccmd)] := by
      rw [hrun]
      simp [proc_calls_cons, proc_calls_append, proc_calls_scan, proc_calls_out_send]
    rw [hp, hc]
    refine ⟨by simp [error_envelope, reply_envelope], ?_, ?_⟩
    · intro e he hcode
      simp only [List.mem_singleton, Option.some.injEq] at he
      subst he
      simp [error_code_reply_envelope] at hcode
    · constructor
      · rintro ⟨e, he, hcode⟩
        simp only [List.mem_singleton, Option.some.injEq] at he
        subst he
        simp [error_code_reply_envelope] at hcode
      · rintro ⟨_, _, ac', pi', _, _, _, _, _, _, hmem, hnone⟩
        simp only [List.mem_singleton, Prod.mk.injEq] at hmem
        obtain ⟨h1, h2⟩ := hmem
        rw [h1, h2, hr] at hnone
        cases hnone

/-- Witness of C20: the request `{"command":"generator.stats"}` when the
generator gives no reply: the -4 envelope is the No-process-response one. -/
theorem missing_params_unreachable_witness :
    some (error_envelope (-4) "No process response") ∈
      packed (ckpool_api (env_generator none) (request generator_stats_payload)) ∧
    error_code (error_envelope (-4) "No process response") = some (-4) ∧
    error_envelope (-4) "No process response" =
      .object [("result", .boolean false),
               ("error", .array [.integer (-4), .string "No process response"]),
               ("response", .null)] :=
  ⟨List.mem_singleton.2 rfl, rfl,
    (missing_params_unreachable (env_generator none)
      (request generator_stats_payload)).2.2.1
      (error_envelope (-4) "No process response") (List.mem_singleton.2 rfl) rfl⟩

end Ckpool
